import Mathlib

/-!
Shallow embedding of the management-signal refresh engine of the ClList
repository.  The source of truth is the SQL migration that defines the
tables `clients`, `attendance`, `payments`, `follow_up_tasks`,
`notifications`, `automation_settings` and the plpgsql function
`refresh_management_signals` (security definer, runs as one transaction).

Rows are modelled as structures, each table as a list of rows, and the
function as a state transformer.  Dates are integers (days), and a
timestamptz is a day together with a sub-day tick; the SQL date cast of a
timestamptz is the day component.  Numeric values (the attendance drop
ratio) are rationals.  Key columns that the function never reads or
writes (surrogate uuid ids, phone, time_start, bed_type, notes, price)
are omitted from the row structures.
-/

/-- A timestamptz value: the calendar day it falls on together with the
time of day inside that day.  Casting to date keeps the day. -/
structure Timestamptz where
  day : Int
  tick : Nat
  deriving DecidableEq

/-- One row of public.clients, restricted to the columns that
refresh_management_signals reads. -/
structure Client where
  id : Nat
  user_id : Nat
  full_name : String
  is_active : Bool
  deriving DecidableEq

/-- One row of public.attendance, restricted to the columns that
refresh_management_signals reads.  The status column holds one of the
strings attended, canceled, no_show. -/
structure Attendance where
  user_id : Nat
  client_id : Nat
  session_date : Int
  status : String
  deriving DecidableEq

/-- One row of public.payments, restricted to the columns that
refresh_management_signals reads.  The lessons column is nullable. -/
structure Payment where
  user_id : Nat
  client_id : Nat
  month_start : Int
  lessons : Option Int
  paid : Bool
  deriving DecidableEq

/-- One row of public.follow_up_tasks.  The natural key used for upserts
is (user_id, client_id, rule_key, due_date). -/
structure FollowUpTask where
  user_id : Nat
  client_id : Nat
  rule_key : String
  title : String
  details : Option String
  priority : String
  status : String
  due_date : Int
  created_at : Timestamptz
  updated_at : Timestamptz
  resolved_at : Option Timestamptz
  deriving DecidableEq

/-- One row of public.notifications.  The natural key used for upserts is
(user_id, client_id, type, created_for_date). -/
structure Notification where
  user_id : Nat
  client_id : Nat
  type : String
  title : String
  body : Option String
  created_for_date : Int
  is_read : Bool
  created_at : Timestamptz
  read_at : Option Timestamptz
  deriving DecidableEq

/-- One row of public.automation_settings (primary key user_id). -/
structure AutomationSettings where
  user_id : Nat
  no_show_risk_enabled : Bool
  attendance_drop_enabled : Bool
  pending_unpaid_risk_enabled : Bool
  no_show_threshold : Int
  pending_lessons_threshold : Int
  attendance_drop_ratio : Rat
  last_refreshed_at : Option Timestamptz
  created_at : Timestamptz
  updated_at : Timestamptz
  deriving DecidableEq

/-- The stored database state: one list of rows per table touched by the
refresh function. -/
structure DBState where
  clients : List Client
  attendance : List Attendance
  payments : List Payment
  follow_up_tasks : List FollowUpTask
  notifications : List Notification
  automation_settings : List AutomationSettings
  deriving DecidableEq

/-- The row returned by refresh_management_signals:
(generated_tasks, generated_notifications, refreshed_at). -/
structure RefreshResult where
  generated_tasks : Nat
  generated_notifications : Nat
  refreshed_at : Timestamptz
  deriving DecidableEq

/-- The ambient evaluation context of one invocation: now(),
current_date = now cast to date, and the month bounds
date_trunc(month, now()) and date_trunc(month, now()) + 1 month. -/
structure Env where
  now : Timestamptz
  monthStart : Int
  nextMonthStart : Int
  deriving DecidableEq

/-- today_date := current_date, the date of now(). -/
def Env.today (env : Env) : Int := env.now.day

/-- Errors surfaced by one invocation: the explicit raise for a missing
auth.uid(), and a failure of the underlying store at some statement
(data source unavailable, constraint violation), which aborts the
surrounding transaction. -/
inductive RefreshError where
  | notAuthenticated
  | storeFailure
  deriving DecidableEq

/-- The default automation_settings row created by
insert into automation_settings (user_id) values (uid); every other
column takes its declared default. -/
def defaultSettings (uid : Nat) (now : Timestamptz) : AutomationSettings :=
  { user_id := uid
    no_show_risk_enabled := true
    attendance_drop_enabled := true
    pending_unpaid_risk_enabled := true
    no_show_threshold := 2
    pending_lessons_threshold := 4
    attendance_drop_ratio := (1 : Rat) / 2
    last_refreshed_at := none
    created_at := now
    updated_at := now }

/-- insert into automation_settings (user_id) values (uid)
on conflict (user_id) do nothing. -/
def ensureSettings (uid : Nat) (now : Timestamptz) (l : List AutomationSettings) :
    List AutomationSettings :=
  if l.any (fun s => s.user_id == uid) then l else l ++ [defaultSettings uid now]

/-- update automation_settings set last_refreshed_at = now(),
updated_at = now() where user_id = uid. -/
def setLastRefreshed (uid : Nat) (now : Timestamptz) (l : List AutomationSettings) :
    List AutomationSettings :=
  l.map (fun s =>
    if s.user_id == uid then
      { s with last_refreshed_at := some now, updated_at := now }
    else s)

/-- One finding of a rule, carrying the values the loop body feeds into
the task and notification inserts. -/
structure Signal where
  client_id : Nat
  rule_key : String
  taskTitle : String
  taskDetails : String
  priority : String
  notifTitle : String
  notifBody : String
  deriving DecidableEq

/-- Count of attendance rows of the owner for one client with a given
status whose session_date lies in [lo, hi] (hi inclusive). -/
def attendanceCountIncl (uid : Nat) (cid : Nat) (status : String) (lo hi : Int)
    (atts : List Attendance) : Nat :=
  (atts.filter (fun a =>
    a.user_id == uid && (a.client_id == cid && (a.status == status &&
      (decide (lo ≤ a.session_date) && decide (a.session_date ≤ hi)))))).length

/-- Count of attendance rows of the owner for one client with a given
status whose session_date lies in [lo, hi) (hi exclusive). -/
def attendanceCountExcl (uid : Nat) (cid : Nat) (status : String) (lo hi : Int)
    (atts : List Attendance) : Nat :=
  (atts.filter (fun a =>
    a.user_id == uid && (a.client_id == cid && (a.status == status &&
      (decide (lo ≤ a.session_date) && decide (a.session_date < hi)))))).length

/-- No-show count of one client over the trailing window
[today - 28 days, today]. -/
def noShowCount28 (uid : Nat) (today : Int) (atts : List Attendance) (cid : Nat) : Nat :=
  attendanceCountIncl uid cid "no_show" (today - 28) today atts

/-- The no-show loop query, per client: the join with clients groups the
matching no_show attendance rows of that client; a group exists only when
at least one row matches, and the having clause keeps groups whose count
reaches the threshold. -/
def noShowSignal? (uid : Nat) (today : Int) (threshold : Int)
    (atts : List Attendance) (c : Client) : Option Signal :=
  let cnt := noShowCount28 uid today atts c.id
  if 0 < cnt ∧ threshold ≤ (cnt : Int) then
    some { client_id := c.id
           rule_key := "no_show_risk"
           taskTitle := "Κίνδυνος από no-show"
           taskDetails := "Ο πελάτης " ++ c.full_name ++ " έχει " ++ toString cnt ++
             " no-show τις τελευταίες 28 ημέρες."
           priority := "high"
           notifTitle := "Πελάτης υψηλού ρίσκου"
           notifBody := c.full_name ++ ": " ++ toString cnt ++
             " no-show τις τελευταίες 28 ημέρες." }
  else none

/-- The result set of the no-show loop: one finding per owner client whose
no-show count over the trailing 28-day window reaches the threshold.  The
query joins on c.user_id = a.user_id with a.user_id fixed to the owner,
so only clients of the owner contribute groups. -/
def noShowSignals (uid : Nat) (today : Int) (threshold : Int)
    (clients : List Client) (atts : List Attendance) : List Signal :=
  (clients.filter (fun c => c.user_id == uid)).filterMap
    (noShowSignal? uid today threshold atts)

/-- recent attended count of the attendance-drop rule:
status attended, session_date in [today - 56 days, today - 28 days). -/
def attendedPrevious (uid : Nat) (today : Int) (atts : List Attendance) (cid : Nat) : Nat :=
  attendanceCountExcl uid cid "attended" (today - 56) (today - 28) atts

/-- recent attended count of the attendance-drop rule:
status attended, session_date in [today - 28 days, today]. -/
def attendedRecent (uid : Nat) (today : Int) (atts : List Attendance) (cid : Nat) : Nat :=
  attendanceCountIncl uid cid "attended" (today - 28) today atts

/-- The attendance-drop loop query, per client: active clients of the
owner whose previous-window attended count is positive and whose recent
attended count is at most floor(previous * attendance_drop_ratio). -/
def attendanceDropSignal? (uid : Nat) (today : Int) (ratio : Rat)
    (atts : List Attendance) (c : Client) : Option Signal :=
  if c.user_id == uid && c.is_active then
    let recent := attendedRecent uid today atts c.id
    let previous := attendedPrevious uid today atts c.id
    if 0 < previous ∧ (recent : Int) ≤ Rat.floor ((previous : Rat) * ratio) then
      some { client_id := c.id
             rule_key := "attendance_drop"
             taskTitle := "Πτώση παρακολούθησης"
             taskDetails := "Ο πελάτης " ++ c.full_name ++ " έχει " ++ toString recent ++
               " παρακολουθήσεις (προηγούμενο 28ήμερο: " ++ toString previous ++ ")."
             priority := "medium"
             notifTitle := "Πτώση προσέλευσης"
             notifBody := c.full_name ++ ": " ++ toString recent ++ " τώρα έναντι " ++
               toString previous ++ " στο προηγούμενο 28ήμερο." }
    else none
  else none

/-- The result set of the attendance-drop loop. -/
def attendanceDropSignals (uid : Nat) (today : Int) (ratio : Rat)
    (clients : List Client) (atts : List Attendance) : List Signal :=
  clients.filterMap (attendanceDropSignal? uid today ratio atts)

/-- attended_this_month of the pending-unpaid rule: status attended,
session_date in [month_start, next_month_start). -/
def attendedThisMonth (uid : Nat) (monthStart nextMonthStart : Int)
    (atts : List Attendance) (cid : Nat) : Nat :=
  attendanceCountExcl uid cid "attended" monthStart nextMonthStart atts

/-- pending_lessons of one payment row:
greatest(0, coalesce(lessons, 0) - attended_this_month). -/
def pendingLessons (uid : Nat) (monthStart nextMonthStart : Int)
    (atts : List Attendance) (p : Payment) : Int :=
  max 0 (p.lessons.getD 0 - (attendedThisMonth uid monthStart nextMonthStart atts p.client_id : Int))

/-- The pending-unpaid loop query, per payment row: unpaid payments of
the owner for the current month, joined to their client row, whose
pending lesson count reaches the threshold. -/
def pendingUnpaidSignal? (uid : Nat) (monthStart nextMonthStart : Int) (threshold : Int)
    (clients : List Client) (atts : List Attendance) (p : Payment) : Option Signal :=
  if p.user_id == uid && (p.month_start == monthStart && p.paid == false) then
    match clients.find? (fun c => c.id == p.client_id && c.user_id == p.user_id) with
    | some c =>
      let pending := pendingLessons uid monthStart nextMonthStart atts p
      if threshold ≤ pending then
        some { client_id := p.client_id
               rule_key := "pending_unpaid_risk"
               taskTitle := "Απλήρωτα με υψηλή εκκρεμότητα"
               taskDetails := "Ο πελάτης " ++ c.full_name ++ " έχει " ++ toString pending ++
                 " εκκρεμή μαθήματα και είναι απλήρωτος."
               priority := "medium"
               notifTitle := "Follow-up πληρωμής"
               notifBody := c.full_name ++ ": " ++ toString pending ++
                 " εκκρεμή μαθήματα χωρίς εξόφληση." }
      else none
    | none => none
  else none

/-- The result set of the pending-unpaid loop. -/
def pendingUnpaidSignals (uid : Nat) (monthStart nextMonthStart : Int) (threshold : Int)
    (clients : List Client) (atts : List Attendance) (payments : List Payment) : List Signal :=
  payments.filterMap (pendingUnpaidSignal? uid monthStart nextMonthStart threshold clients atts)

/-- The column values supplied to one insert into follow_up_tasks. -/
structure TaskInsert where
  user_id : Nat
  client_id : Nat
  rule_key : String
  title : String
  details : Option String
  priority : String
  status : String
  due_date : Int
  updated_at : Timestamptz
  deriving DecidableEq

/-- The column values supplied to one insert into notifications. -/
structure NotificationInsert where
  user_id : Nat
  client_id : Nat
  type : String
  title : String
  body : Option String
  created_for_date : Int
  is_read : Bool
  created_at : Timestamptz
  deriving DecidableEq

/-- Conflict test of the task upsert on the unique key
(user_id, client_id, rule_key, due_date). -/
def taskConflicts (t : TaskInsert) (r : FollowUpTask) : Bool :=
  r.user_id == t.user_id && r.client_id == t.client_id &&
    r.rule_key == t.rule_key && r.due_date == t.due_date

/-- Conflict test of the notification upsert on the unique key
(user_id, client_id, type, created_for_date). -/
def notifConflicts (n : NotificationInsert) (r : Notification) : Bool :=
  r.user_id == n.user_id && r.client_id == n.client_id &&
    r.type == n.type && r.created_for_date == n.created_for_date

/-- The fresh row created when the task insert meets no conflict;
created_at and resolved_at take their column defaults. -/
def insertTaskRow (t : TaskInsert) (now : Timestamptz) : FollowUpTask :=
  { user_id := t.user_id, client_id := t.client_id, rule_key := t.rule_key
    title := t.title, details := t.details, priority := t.priority
    status := t.status, due_date := t.due_date
    created_at := now, updated_at := t.updated_at, resolved_at := none }

/-- The conflict branch of the task upsert:
do update set title, details, priority, updated_at = now(). -/
def conflictUpdateTask (t : TaskInsert) (now : Timestamptz) (r : FollowUpTask) : FollowUpTask :=
  { r with title := t.title, details := t.details, priority := t.priority, updated_at := now }

/-- insert into follow_up_tasks ... on conflict (user_id, client_id,
rule_key, due_date) do update set title, details, priority, updated_at.
The unique constraint admits at most one conflicting row; the model
updates the first key match and otherwise appends. -/
def upsertFollowUpTask (t : TaskInsert) (now : Timestamptz) :
    List FollowUpTask → List FollowUpTask
  | [] => [insertTaskRow t now]
  | r :: rs =>
    if taskConflicts t r then conflictUpdateTask t now r :: rs
    else r :: upsertFollowUpTask t now rs

/-- The fresh row created when the notification insert meets no conflict;
read_at takes its column default. -/
def insertNotificationRow (n : NotificationInsert) : Notification :=
  { user_id := n.user_id, client_id := n.client_id, type := n.type
    title := n.title, body := n.body, created_for_date := n.created_for_date
    is_read := n.is_read, created_at := n.created_at, read_at := none }

/-- The conflict branch of the notification upsert:
do update set title, body, is_read = false. -/
def conflictUpdateNotification (n : NotificationInsert) (r : Notification) : Notification :=
  { r with title := n.title, body := n.body, is_read := false }

/-- insert into notifications ... on conflict (user_id, client_id, type,
created_for_date) do update set title, body, is_read = false. -/
def upsertNotification (n : NotificationInsert) :
    List Notification → List Notification
  | [] => [insertNotificationRow n]
  | r :: rs =>
    if notifConflicts n r then conflictUpdateNotification n r :: rs
    else r :: upsertNotification n rs

/-- The task insert built by every loop body from one finding:
values (uid, client_id, rule_key, title, details, priority, open,
today_date, now()). -/
def signalTaskInsert (uid : Nat) (today : Int) (now : Timestamptz) (sg : Signal) : TaskInsert :=
  { user_id := uid, client_id := sg.client_id, rule_key := sg.rule_key
    title := sg.taskTitle, details := some sg.taskDetails, priority := sg.priority
    status := "open", due_date := today, updated_at := now }

/-- The notification insert built by every loop body from one finding:
values (uid, client_id, type, title, body, today_date, false, now()). -/
def signalNotificationInsert (uid : Nat) (today : Int) (now : Timestamptz) (sg : Signal) :
    NotificationInsert :=
  { user_id := uid, client_id := sg.client_id, type := sg.rule_key
    title := sg.notifTitle, body := some sg.notifBody
    created_for_date := today, is_read := false, created_at := now }

/-- The running state of one invocation: the evolving database, the two
accumulated counters, and the index of the next store statement (used by
the failure oracle). -/
structure RunSt where
  db : DBState
  taskCount : Nat
  notifCount : Nat
  stmt : Nat
  deriving DecidableEq

/-- One loop iteration per finding: upsert the task, add its affected row
count (a single-row insert-or-update always reports one affected row),
then upsert the notification likewise.  The failure oracle may make any
store statement raise, which aborts the run carrying the state written so
far. -/
def processSignals (faults : Nat → Bool) (uid : Nat) (env : Env) :
    List Signal → RunSt → Except (RefreshError × DBState) RunSt
  | [], rs => .ok rs
  | sg :: rest, rs =>
    if faults rs.stmt then .error (.storeFailure, rs.db)
    else
      let db1 := { rs.db with
        follow_up_tasks :=
          upsertFollowUpTask (signalTaskInsert uid env.today env.now sg) env.now
            rs.db.follow_up_tasks }
      let rs1 : RunSt :=
        { db := db1, taskCount := rs.taskCount + 1, notifCount := rs.notifCount
          stmt := rs.stmt + 1 }
      if faults rs1.stmt then .error (.storeFailure, rs1.db)
      else
        let db2 := { rs1.db with
          notifications :=
            upsertNotification (signalNotificationInsert uid env.today env.now sg)
              rs1.db.notifications }
        processSignals faults uid env rest
          { db := db2, taskCount := rs1.taskCount, notifCount := rs1.notifCount + 1
            stmt := rs1.stmt + 1 }

/-- One rule of the refresh: when enabled, run its select (a read that
the failure oracle may abort) against the current database and process
the resulting findings. -/
def runRule (faults : Nat → Bool) (uid : Nat) (env : Env) (enabled : Bool)
    (signalsOf : DBState → List Signal) (rs : RunSt) :
    Except (RefreshError × DBState) RunSt :=
  if enabled then
    if faults rs.stmt then .error (.storeFailure, rs.db)
    else processSignals faults uid env (signalsOf rs.db) { rs with stmt := rs.stmt + 1 }
  else .ok rs

/-- The closing statements of a full refresh: write last_refreshed_at and
updated_at, then return the accumulated counters with now(). -/
def finishRefresh (faults : Nat → Bool) (uid : Nat) (env : Env) (rs : RunSt) :
    Except (RefreshError × DBState) (DBState × RefreshResult) :=
  if faults rs.stmt then .error (.storeFailure, rs.db)
  else
    .ok ({ rs.db with
            automation_settings := setLastRefreshed uid env.now rs.db.automation_settings },
         { generated_tasks := rs.taskCount, generated_notifications := rs.notifCount
           refreshed_at := env.now })

/-- The three rule blocks in source order followed by the closing
update, starting from the database with the settings row ensured. -/
def runRules (faults : Nat → Bool) (uid : Nat) (env : Env) (s : AutomationSettings)
    (db0 : DBState) : Except (RefreshError × DBState) (DBState × RefreshResult) :=
  match runRule faults uid env s.no_show_risk_enabled
      (fun d => noShowSignals uid env.today s.no_show_threshold d.clients d.attendance)
      { db := db0, taskCount := 0, notifCount := 0, stmt := 1 } with
  | .error e => .error e
  | .ok rs1 =>
    match runRule faults uid env s.attendance_drop_enabled
        (fun d => attendanceDropSignals uid env.today s.attendance_drop_ratio
          d.clients d.attendance) rs1 with
    | .error e => .error e
    | .ok rs2 =>
      match runRule faults uid env s.pending_unpaid_risk_enabled
          (fun d => pendingUnpaidSignals uid env.monthStart env.nextMonthStart
            s.pending_lessons_threshold d.clients d.attendance d.payments) rs2 with
      | .error e => .error e
      | .ok rs3 => finishRefresh faults uid env rs3

/-- The body of refresh_management_signals: resolve auth.uid(), ensure
the settings row (statement 0 to the failure oracle), read it back, apply
the daily guard, and otherwise run the rules.  An error carries the state
written so far, which the surrounding transaction will discard. -/
def refreshBody (faults : Nat → Bool) (auth : Option Nat) (env : Env) (db : DBState) :
    Except (RefreshError × DBState) (DBState × RefreshResult) :=
  match auth with
  | none => .error (.notAuthenticated, db)
  | some uid =>
    if faults 0 then .error (.storeFailure, db)
    else
      let db0 := { db with
        automation_settings := ensureSettings uid env.now db.automation_settings }
      match db0.automation_settings.find? (fun s => s.user_id == uid) with
      | none =>
        -- dead branch: the ensuring insert guarantees a row for uid; with a
        -- null settings record every rule flag reads as false, so plpgsql
        -- would skip the rules and run the closing update.
        finishRefresh faults uid env { db := db0, taskCount := 0, notifCount := 0, stmt := 1 }
      | some s =>
        match s.last_refreshed_at with
        | some t =>
          if t.day == env.today then
            .ok (db0, { generated_tasks := 0, generated_notifications := 0, refreshed_at := t })
          else runRules faults uid env s db0
        | none => runRules faults uid env s db0

/-- One rpc invocation of refresh_management_signals as seen from
outside: the statement runs in a transaction, so on any raised error all
writes of the invocation are rolled back and the caller observes the
starting state together with the error. -/
def refreshTx (faults : Nat → Bool) (auth : Option Nat) (env : Env) (db : DBState) :
    DBState × Except RefreshError RefreshResult :=
  match refreshBody faults auth env db with
  | .ok (db1, r) => (db1, .ok r)
  | .error (e, _) => (db, .error e)

/-- The failure oracle of a run in which the store raises no error. -/
def noFaults : Nat → Bool := fun _ => false

/-- refresh_management_signals under a store that raises no error. -/
def refresh_management_signals (auth : Option Nat) (env : Env) (db : DBState) :
    DBState × Except RefreshError RefreshResult :=
  refreshTx noFaults auth env db

/-! ## Derived views of the state used by the statements below -/

/-- The state after the ensuring insert of the settings row. -/
def ensuredDB (uid : Nat) (env : Env) (db : DBState) : DBState :=
  { db with automation_settings := ensureSettings uid env.now db.automation_settings }

/-- The settings row the refresh reads: the stored row of the owner, or
the freshly inserted default one. -/
def settingsOf (uid : Nat) (env : Env) (db : DBState) : AutomationSettings :=
  (db.automation_settings.find? (fun s => s.user_id == uid)).getD (defaultSettings uid env.now)

/-- The stored last_refreshed_at of the owner, when a settings row exists. -/
def lastRefreshedAt (uid : Nat) (db : DBState) : Option Timestamptz :=
  (db.automation_settings.find? (fun s => s.user_id == uid)).bind
    (fun s => s.last_refreshed_at)

/-- Whether the daily guard fires for the owner in the given context:
last_refreshed_at is present and falls on the calendar day of now(). -/
def dailyGuardHitB (uid : Nat) (env : Env) (db : DBState) : Bool :=
  match lastRefreshedAt uid db with
  | some t => t.day == env.now.day
  | none => false

/-! ## Elementary lemmas about the settings helpers -/

theorem find?_append_right {α : Type} (p : α → Bool) (d : α) :
    ∀ l : List α, l.find? p = none → (l ++ [d]).find? p = [d].find? p
  | [], _ => rfl
  | x :: xs, h => by
    cases hpx : p x with
    | true => simp [List.find?_cons, hpx] at h
    | false =>
      have h2 : xs.find? p = none := by simpa [List.find?_cons, hpx] using h
      simpa [List.find?_cons, hpx] using find?_append_right p d xs h2

theorem any_of_find?_some {α : Type} {p : α → Bool} {l : List α} {a : α}
    (h : l.find? p = some a) : l.any p = true := by
  rcases List.mem_of_find?_eq_some h with hmem
  exact List.any_eq_true.mpr ⟨a, hmem, List.find?_some h⟩

theorem find?_ensureSettings (uid : Nat) (now : Timestamptz) (l : List AutomationSettings) :
    (ensureSettings uid now l).find? (fun s => s.user_id == uid) =
      some ((l.find? (fun s => s.user_id == uid)).getD (defaultSettings uid now)) := by
  unfold ensureSettings
  by_cases hany : l.any (fun s => s.user_id == uid) = true
  · simp only [hany, if_true]
    obtain ⟨x, hmem, hx⟩ := List.any_eq_true.mp hany
    have hsome : (l.find? (fun s => s.user_id == uid)).isSome := by
      rw [List.find?_isSome]; exact ⟨x, hmem, hx⟩
    obtain ⟨a, ha⟩ := Option.isSome_iff_exists.mp hsome
    rw [ha]; rfl
  · have hany2 : l.any (fun s => s.user_id == uid) = false := by simpa using hany
    have hnone : l.find? (fun s => s.user_id == uid) = none := by
      rw [List.find?_eq_none]
      intro x hx hpx
      exact hany (List.any_eq_true.mpr ⟨x, hx, hpx⟩)
    rw [hany2]
    simp only [Bool.false_eq_true, if_false]
    rw [find?_append_right _ _ l hnone, hnone,
      List.find?_cons_of_pos _ (by simp [defaultSettings])]
    simp

theorem find?_setLastRefreshed (uid : Nat) (now : Timestamptz) :
    ∀ l : List AutomationSettings,
      (setLastRefreshed uid now l).find? (fun s => s.user_id == uid) =
        (l.find? (fun s => s.user_id == uid)).map
          (fun s => { s with last_refreshed_at := some now, updated_at := now })
  | [] => rfl
  | r :: rs => by
    have hrec := find?_setLastRefreshed uid now rs
    by_cases h : r.user_id = uid
    · have hb : (r.user_id == uid) = true := by simp [h]
      have hmap : setLastRefreshed uid now (r :: rs) =
          { r with last_refreshed_at := some now, updated_at := now } ::
            setLastRefreshed uid now rs := by
        simp [setLastRefreshed, hb, h]
      rw [hmap,
        @List.find?_cons_of_pos _ (fun s => s.user_id == uid)
          { r with last_refreshed_at := some now, updated_at := now }
          (setLastRefreshed uid now rs) (by simpa using hb),
        @List.find?_cons_of_pos _ (fun s => s.user_id == uid) r rs hb]
      rfl
    · have hb : (r.user_id == uid) = false := by simp [h]
      have hmap : setLastRefreshed uid now (r :: rs) = r :: setLastRefreshed uid now rs := by
        simp [setLastRefreshed, hb, h]
      rw [hmap,
        @List.find?_cons_of_neg _ (fun s => s.user_id == uid) r
          (setLastRefreshed uid now rs) (by simp [hb]),
        @List.find?_cons_of_neg _ (fun s => s.user_id == uid) r rs (by simp [hb]), hrec]

/-! ## Claim C7 -/

/-- Claim C7: with no resolvable caller identity the call fails with the
unauthenticated error and the stored state is untouched. -/
theorem refresh_unauthenticated_no_writes (env : Env) (db : DBState) :
    refresh_management_signals none env db = (db, Except.error RefreshError.notAuthenticated) := rfl

/-! ## Claim C5 -/

theorem upsertTask_of_conflict (t : TaskInsert) (now : Timestamptz) :
    ∀ l : List FollowUpTask, l.any (taskConflicts t) = true →
      ∃ pre r post, l = pre ++ r :: post ∧ taskConflicts t r = true ∧
        upsertFollowUpTask t now l = pre ++ conflictUpdateTask t now r :: post
  | [], h => by simp at h
  | x :: xs, h => by
    by_cases hx : taskConflicts t x
    · exact ⟨[], x, xs, rfl, hx, by simp [upsertFollowUpTask, hx]⟩
    · have hxs : xs.any (taskConflicts t) = true := by
        simpa [List.any_cons, hx] using h
      obtain ⟨pre, r, post, hsplit, hr, hres⟩ := upsertTask_of_conflict t now xs hxs
      exact ⟨x :: pre, r, post, by simp [hsplit], hr, by
        simp [upsertFollowUpTask, hx, hres]⟩

theorem upsertNotification_of_conflict (n : NotificationInsert) :
    ∀ ln : List Notification, ln.any (notifConflicts n) = true →
      ∃ pre r post, ln = pre ++ r :: post ∧ notifConflicts n r = true ∧
        upsertNotification n ln = pre ++ conflictUpdateNotification n r :: post
  | [], h => by simp at h
  | x :: xs, h => by
    by_cases hx : notifConflicts n x
    · exact ⟨[], x, xs, rfl, hx, by simp [upsertNotification, hx]⟩
    · have hxs : xs.any (notifConflicts n) = true := by
        simpa [List.any_cons, hx] using h
      obtain ⟨pre, r, post, hsplit, hr, hres⟩ := upsertNotification_of_conflict n xs hxs
      exact ⟨x :: pre, r, post, by simp [hsplit], hr, by
        simp [upsertNotification, hx, hres]⟩

/-- Claim C5: when the natural key conflicts with a stored row, the task
upsert rewrites only title, details, priority and updated_at of that row
(status and every other column unchanged), the notification upsert
rewrites only title and body and resets is_read to false, and neither
store grows by a row. -/
theorem upsert_conflict_update_semantics (t : TaskInsert) (now : Timestamptz)
    (l : List FollowUpTask) (n : NotificationInsert) (ln : List Notification)
    (hconf : l.any (taskConflicts t) = true) (hnconf : ln.any (notifConflicts n) = true) :
    ((upsertFollowUpTask t now l).length = l.length ∧
      ∃ pre r post, l = pre ++ r :: post ∧ taskConflicts t r = true ∧
        upsertFollowUpTask t now l =
          pre ++ { r with title := t.title, details := t.details,
                          priority := t.priority, updated_at := now } :: post) ∧
    ((upsertNotification n ln).length = ln.length ∧
      ∃ pre r post, ln = pre ++ r :: post ∧ notifConflicts n r = true ∧
        upsertNotification n ln =
          pre ++ { r with title := n.title, body := n.body, is_read := false } :: post) := by
  obtain ⟨pre, r, post, hsplit, hr, hres⟩ := upsertTask_of_conflict t now l hconf
  obtain ⟨pren, rn, postn, hsplitn, hrn, hresn⟩ := upsertNotification_of_conflict n ln hnconf
  refine ⟨⟨?_, pre, r, post, hsplit, hr, hres⟩, ⟨?_, pren, rn, postn, hsplitn, hrn, hresn⟩⟩
  · rw [hres, hsplit]; simp
  · rw [hresn, hsplitn]; simp

/-- Witness for C5 at a concrete conflicting pair of stores. -/
theorem upsert_conflict_update_semantics_witness :
    ((upsertFollowUpTask
        { user_id := 7, client_id := 1, rule_key := "no_show_risk", title := "T2"
          details := some "D2", priority := "high", status := "open", due_date := 100
          updated_at := ⟨100, 9⟩ } ⟨100, 9⟩
        [{ user_id := 7, client_id := 1, rule_key := "no_show_risk", title := "T1"
           details := some "D1", priority := "high", status := "done", due_date := 100
           created_at := ⟨99, 0⟩, updated_at := ⟨99, 0⟩, resolved_at := none }]).length = 1) := by
  have h := upsert_conflict_update_semantics
    { user_id := 7, client_id := 1, rule_key := "no_show_risk", title := "T2"
      details := some "D2", priority := "high", status := "open", due_date := 100
      updated_at := ⟨100, 9⟩ } ⟨100, 9⟩
    [{ user_id := 7, client_id := 1, rule_key := "no_show_risk", title := "T1"
       details := some "D1", priority := "high", status := "done", due_date := 100
       created_at := ⟨99, 0⟩, updated_at := ⟨99, 0⟩, resolved_at := none }]
    { user_id := 7, client_id := 1, type := "no_show_risk", title := "N2"
      body := some "B2", created_for_date := 100, is_read := false, created_at := ⟨100, 9⟩ }
    [{ user_id := 7, client_id := 1, type := "no_show_risk", title := "N1"
       body := some "B1", created_for_date := 100, is_read := true, created_at := ⟨99, 0⟩
       read_at := none }]
    (by decide) (by decide)
  exact h.1.1

/-! ## Claim C3 -/

/-- Claim C3: for an active client of the owner the attendance-drop rule
emits a medium-priority finding with rule key attendance_drop exactly
when the previous-window attended count is positive and the recent count
is at most floor(previous * attendance_drop_ratio); a client with zero
previous attendance is never flagged. -/
theorem attendance_drop_rule_correct (uid : Nat) (today : Int) (ratio : Rat)
    (atts : List Attendance) (c : Client) (hcu : c.user_id = uid) (hact : c.is_active = true) :
    ((attendanceDropSignal? uid today ratio atts c).isSome ↔
      (0 < attendedPrevious uid today atts c.id ∧
        (attendedRecent uid today atts c.id : Int) ≤
          Rat.floor ((attendedPrevious uid today atts c.id : Rat) * ratio))) ∧
    (∀ sg, attendanceDropSignal? uid today ratio atts c = some sg →
      sg.priority = "medium" ∧ sg.rule_key = "attendance_drop" ∧ sg.client_id = c.id) ∧
    (attendedPrevious uid today atts c.id = 0 →
      attendanceDropSignal? uid today ratio atts c = none) := by
  have hcond : (c.user_id == uid && c.is_active) = true := by simp [hcu, hact]
  simp only [attendanceDropSignal?, hcond, if_true]
  refine ⟨?_, ?_, ?_⟩
  · split
    next hP => simp [hP]
    next hP => simp [hP]
  · intro sg hsg
    split at hsg
    · simp only [Option.some.injEq] at hsg
      subst hsg
      exact ⟨rfl, rfl, rfl⟩
    · cases hsg
  · intro h0
    split
    next hP => exact absurd hP.1 (by omega)
    next => rfl

/-- Concrete attendance history: for client 1 of owner 7, ten attended
sessions in the previous window and five in the recent one. -/
def attsC3W : List Attendance :=
  (List.range 10).map (fun k =>
    { user_id := 7, client_id := 1, session_date := 50 + (k : Int), status := "attended" }) ++
  (List.range 5).map (fun k =>
    { user_id := 7, client_id := 1, session_date := 80 + (k : Int), status := "attended" })

/-- Concrete active client of owner 7. -/
def cC3W : Client := { id := 1, user_id := 7, full_name := "A", is_active := true }

/-- Witness for C3: with previous = 10, recent = 5 and ratio one half the
rule fires. -/
theorem attendance_drop_rule_correct_witness :
    (attendanceDropSignal? 7 100 ((1 : Rat) / 2) attsC3W cC3W).isSome = true := by
  have h := attendance_drop_rule_correct 7 100 ((1 : Rat) / 2) attsC3W cC3W rfl rfl
  have hprev : attendedPrevious 7 100 attsC3W cC3W.id = 10 := by decide
  have hrec : attendedRecent 7 100 attsC3W cC3W.id = 5 := by decide
  refine h.1.mpr ?_
  rw [hprev, hrec]
  norm_num [Rat.floor]

/-! ## Claim C4 -/

/-- Claim C4: for a payment row of the owner whose client join succeeds,
the pending-unpaid rule emits a medium-priority finding with rule key
pending_unpaid_risk exactly when the row is for the current month, is
unpaid, and its pending lesson count reaches the threshold; a paid row is
never flagged. -/
theorem pending_unpaid_rule_correct (uid : Nat) (monthStart nextMonthStart threshold : Int)
    (clients : List Client) (atts : List Attendance) (p : Payment) (c : Client)
    (hpu : p.user_id = uid)
    (hjoin : clients.find? (fun c2 => c2.id == p.client_id && c2.user_id == p.user_id) = some c) :
    ((pendingUnpaidSignal? uid monthStart nextMonthStart threshold clients atts p).isSome ↔
      (p.month_start = monthStart ∧ p.paid = false ∧
        threshold ≤ pendingLessons uid monthStart nextMonthStart atts p)) ∧
    (p.paid = true →
      pendingUnpaidSignal? uid monthStart nextMonthStart threshold clients atts p = none) ∧
    (∀ sg, pendingUnpaidSignal? uid monthStart nextMonthStart threshold clients atts p = some sg →
      sg.priority = "medium" ∧ sg.rule_key = "pending_unpaid_risk" ∧
        sg.client_id = p.client_id) := by
  by_cases hm : p.month_start = monthStart
  · by_cases hpd : p.paid = true
    · have hcond : (p.user_id == uid && (p.month_start == monthStart && p.paid == false)) = false := by
        simp [hpd]
      refine ⟨?_, ?_, ?_⟩ <;> simp [pendingUnpaidSignal?, hcond, hpd]
    · have hpd2 : p.paid = false := by simpa using hpd
      have hcond : (p.user_id == uid && (p.month_start == monthStart && p.paid == false)) = true := by
        simp [hpu, hm, hpd2]
      simp only [pendingUnpaidSignal?, hcond, if_true, hjoin]
      refine ⟨?_, ?_, ?_⟩
      · split
        next hP => simp [hm, hpd2, hP]
        next hP => simp [hm, hpd2, hP]
      · intro hcontr
        exact absurd hcontr hpd
      · intro sg hsg
        split at hsg
        · simp only [Option.some.injEq] at hsg
          subst hsg
          exact ⟨rfl, rfl, rfl⟩
        · cases hsg
  · have hcond : (p.user_id == uid && (p.month_start == monthStart && p.paid == false)) = false := by
      simp [hm]
    refine ⟨?_, ?_, ?_⟩ <;> simp [pendingUnpaidSignal?, hcond, hm]

/-- Concrete current-month data: client 1 of owner 7 attended six
sessions of the month starting at day 90; the unpaid payment row covers
ten lessons. -/
def attsC4W : List Attendance :=
  (List.range 6).map (fun k =>
    { user_id := 7, client_id := 1, session_date := 90 + (k : Int), status := "attended" })

/-- Concrete unpaid payment row of client 1 of owner 7. -/
def payC4W : Payment :=
  { user_id := 7, client_id := 1, month_start := 90, lessons := some 10, paid := false }

/-- Witness for C4: pending = 10 - 6 = 4 reaches the threshold 4, so the
rule fires. -/
theorem pending_unpaid_rule_correct_witness :
    (pendingUnpaidSignal? 7 90 120 4 [cC3W] attsC4W payC4W).isSome = true := by
  have h := pending_unpaid_rule_correct 7 90 120 4 [cC3W] attsC4W payC4W cC3W rfl (by decide)
  exact h.1.mpr ⟨rfl, rfl, by decide⟩

/-! ## Claim C10 -/

/-- Claim C10: a current-month unpaid payment row with a null lesson
count yields pending = 0, and since the threshold is at least one the
pending-unpaid rule never flags it. -/
theorem pending_unpaid_null_lessons_never_flags (uid : Nat)
    (monthStart nextMonthStart threshold : Int)
    (clients : List Client) (atts : List Attendance) (p : Payment)
    (hthr : 1 ≤ threshold) (hnull : p.lessons = none) :
    pendingLessons uid monthStart nextMonthStart atts p = 0 ∧
    pendingUnpaidSignal? uid monthStart nextMonthStart threshold clients atts p = none := by
  have hpend : pendingLessons uid monthStart nextMonthStart atts p = 0 := by
    simp only [pendingLessons, hnull, Option.getD_none]
    omega
  refine ⟨hpend, ?_⟩
  unfold pendingUnpaidSignal?
  split
  · split
    · rw [hpend, if_neg (by omega)]
    · rfl
  · rfl

/-- Witness for C10 at a concrete unpaid row with null lessons. -/
theorem pending_unpaid_null_lessons_never_flags_witness :
    pendingLessons 7 90 120 attsC4W
        { user_id := 7, client_id := 1, month_start := 90, lessons := none, paid := false } = 0 ∧
    pendingUnpaidSignal? 7 90 120 4 [cC3W] attsC4W
        { user_id := 7, client_id := 1, month_start := 90, lessons := none, paid := false } = none :=
  pending_unpaid_null_lessons_never_flags 7 90 120 4 [cC3W] attsC4W
    { user_id := 7, client_id := 1, month_start := 90, lessons := none, paid := false }
    (by decide) rfl

/-! ## Characterization of a fault-free run -/

/-- The effect of one loop iteration on the stored state: upsert the task
of the finding, then its notification. -/
def applySignal (uid : Nat) (env : Env) (sg : Signal) (db : DBState) : DBState :=
  { db with
    follow_up_tasks :=
      upsertFollowUpTask (signalTaskInsert uid env.today env.now sg) env.now db.follow_up_tasks
    notifications :=
      upsertNotification (signalNotificationInsert uid env.today env.now sg) db.notifications }

/-- The effect of a whole loop on the stored state. -/
def applySignals (uid : Nat) (env : Env) : List Signal → DBState → DBState
  | [], db => db
  | sg :: rest, db => applySignals uid env rest (applySignal uid env sg db)

theorem processSignals_noFaults (uid : Nat) (env : Env) :
    ∀ (L : List Signal) (rs : RunSt),
      processSignals noFaults uid env L rs =
        .ok { db := applySignals uid env L rs.db
              taskCount := rs.taskCount + L.length
              notifCount := rs.notifCount + L.length
              stmt := rs.stmt + 2 * L.length }
  | [], rs => by simp [processSignals, applySignals]
  | sg :: rest, rs => by
    simp only [processSignals, noFaults, Bool.false_eq_true, if_false]
    rw [processSignals_noFaults uid env rest]
    simp only [applySignals, applySignal, List.length_cons, Except.ok.injEq, RunSt.mk.injEq]
    refine ⟨by first | rfl | trivial, by omega, by omega, by omega⟩

theorem applySignals_reads_preserved (uid : Nat) (env : Env) :
    ∀ (L : List Signal) (db : DBState),
      (applySignals uid env L db).clients = db.clients ∧
      (applySignals uid env L db).attendance = db.attendance ∧
      (applySignals uid env L db).payments = db.payments ∧
      (applySignals uid env L db).automation_settings = db.automation_settings
  | [], db => ⟨rfl, rfl, rfl, rfl⟩
  | sg :: rest, db => by
    simpa [applySignals, applySignal] using
      applySignals_reads_preserved uid env rest (applySignal uid env sg db)

theorem runRule_noFaults (uid : Nat) (env : Env) (enabled : Bool)
    (f : DBState → List Signal) (rs : RunSt) :
    runRule noFaults uid env enabled f rs =
      .ok (if enabled then
            { db := applySignals uid env (f rs.db) rs.db
              taskCount := rs.taskCount + (f rs.db).length
              notifCount := rs.notifCount + (f rs.db).length
              stmt := rs.stmt + 1 + 2 * (f rs.db).length }
          else rs) := by
  cases enabled
  · simp [runRule]
  · simp only [runRule, noFaults, Bool.false_eq_true, if_false, if_true]
    rw [processSignals_noFaults]

theorem finishRefresh_noFaults (uid : Nat) (env : Env) (rs : RunSt) :
    finishRefresh noFaults uid env rs =
      .ok ({ rs.db with
              automation_settings := setLastRefreshed uid env.now rs.db.automation_settings },
           { generated_tasks := rs.taskCount, generated_notifications := rs.notifCount
             refreshed_at := env.now }) := by
  simp [finishRefresh, noFaults]

/-- The combined effect of a full fault-free run past the guard, written
as a plain composition: the signal lists of the three rule blocks in
source order, read against the state each block sees, their loop effects,
and the closing timestamp update.  The second component is the count of
findings, which both counters accumulate. -/
def rulesPipeline (uid : Nat) (env : Env) (s : AutomationSettings) (db0 : DBState) :
    DBState × Nat :=
  let l1 := if s.no_show_risk_enabled then
      noShowSignals uid env.today s.no_show_threshold db0.clients db0.attendance else []
  let db1 := applySignals uid env l1 db0
  let l2 := if s.attendance_drop_enabled then
      attendanceDropSignals uid env.today s.attendance_drop_ratio db1.clients db1.attendance
    else []
  let db2 := applySignals uid env l2 db1
  let l3 := if s.pending_unpaid_risk_enabled then
      pendingUnpaidSignals uid env.monthStart env.nextMonthStart s.pending_lessons_threshold
        db2.clients db2.attendance db2.payments else []
  let db3 := applySignals uid env l3 db2
  ({ db3 with automation_settings := setLastRefreshed uid env.now db3.automation_settings },
   l1.length + (l2.length + l3.length))

theorem runRules_noFaults (uid : Nat) (env : Env) (s : AutomationSettings) (db0 : DBState) :
    runRules noFaults uid env s db0 =
      .ok ((rulesPipeline uid env s db0).1,
        { generated_tasks := (rulesPipeline uid env s db0).2
          generated_notifications := (rulesPipeline uid env s db0).2
          refreshed_at := env.now }) := by
  simp only [runRules, runRule_noFaults, finishRefresh_noFaults, rulesPipeline]
  cases hns : s.no_show_risk_enabled <;> cases hd : s.attendance_drop_enabled <;>
    cases hp : s.pending_unpaid_risk_enabled <;>
      simp [applySignals, Except.ok.injEq, Prod.mk.injEq, RefreshResult.mk.injEq]
  all_goals omega

theorem settingsOf_last (uid : Nat) (env : Env) (db : DBState) :
    (settingsOf uid env db).last_refreshed_at = lastRefreshedAt uid db := by
  unfold settingsOf lastRefreshedAt
  cases h : db.automation_settings.find? (fun s => s.user_id == uid) <;> simp [defaultSettings]

theorem refresh_guard_eq (uid : Nat) (env : Env) (db : DBState) (t : Timestamptz)
    (hlast : lastRefreshedAt uid db = some t) (hday : t.day = env.now.day) :
    refresh_management_signals (some uid) env db =
      (db, .ok { generated_tasks := 0, generated_notifications := 0, refreshed_at := t }) := by
  obtain ⟨s, hfind, hs⟩ := Option.bind_eq_some.mp hlast
  have hens : ensureSettings uid env.now db.automation_settings = db.automation_settings := by
    unfold ensureSettings
    simp [any_of_find?_some hfind]
  unfold refresh_management_signals refreshTx refreshBody
  simp only [noFaults, Bool.false_eq_true, if_false]
  rw [hens, hfind]
  dsimp only
  rw [hs]
  dsimp only
  have hb : (t.day == env.today) = true := by simp [Env.today, hday]
  rw [hb]
  simp

/-- The outcome of a fault-free run that passes the daily guard, written
through the pipeline composition. -/
def fullRunOut (uid : Nat) (env : Env) (db : DBState) :
    DBState × Except RefreshError RefreshResult :=
  let pr := rulesPipeline uid env (settingsOf uid env db) (ensuredDB uid env db)
  (pr.1, Except.ok { generated_tasks := pr.2, generated_notifications := pr.2, refreshed_at := env.now })

theorem refresh_noGuard_eq (uid : Nat) (env : Env) (db : DBState)
    (hguard : dailyGuardHitB uid env db = false) :
    refresh_management_signals (some uid) env db = fullRunOut uid env db := by
  unfold refresh_management_signals refreshTx refreshBody
  simp only [noFaults, Bool.false_eq_true, if_false]
  rw [find?_ensureSettings]
  have hset : (db.automation_settings.find? (fun s2 => s2.user_id == uid)).getD
      (defaultSettings uid env.now) = settingsOf uid env db := rfl
  rw [hset]
  dsimp only
  have hlast := settingsOf_last uid env db
  cases hl : lastRefreshedAt uid db with
  | none =>
    rw [hl] at hlast
    rw [hlast]
    dsimp only
    rw [runRules_noFaults]
    rfl
  | some t =>
    rw [hl] at hlast
    rw [hlast]
    dsimp only
    have hfalse : (t.day == env.today) = false := by
      have h2 := hguard
      unfold dailyGuardHitB at h2
      rw [hl] at h2
      simpa [Env.today] using h2
    rw [hfalse]
    simp only [Bool.false_eq_true, if_false]
    rw [runRules_noFaults]
    rfl

theorem applySignals_clients (uid : Nat) (env : Env) (L : List Signal) (db : DBState) :
    (applySignals uid env L db).clients = db.clients :=
  (applySignals_reads_preserved uid env L db).1

theorem applySignals_attendance (uid : Nat) (env : Env) (L : List Signal) (db : DBState) :
    (applySignals uid env L db).attendance = db.attendance :=
  (applySignals_reads_preserved uid env L db).2.1

theorem applySignals_payments (uid : Nat) (env : Env) (L : List Signal) (db : DBState) :
    (applySignals uid env L db).payments = db.payments :=
  (applySignals_reads_preserved uid env L db).2.2.1

theorem applySignals_settings (uid : Nat) (env : Env) (L : List Signal) (db : DBState) :
    (applySignals uid env L db).automation_settings = db.automation_settings :=
  (applySignals_reads_preserved uid env L db).2.2.2

theorem rulesPipeline_settings (uid : Nat) (env : Env) (s : AutomationSettings) (db0 : DBState) :
    (rulesPipeline uid env s db0).1.automation_settings =
      setLastRefreshed uid env.now db0.automation_settings := by
  unfold rulesPipeline
  dsimp only
  rw [applySignals_settings, applySignals_settings, applySignals_settings]

theorem lastRefreshedAt_fullRun (uid : Nat) (env : Env) (db : DBState) :
    lastRefreshedAt uid (fullRunOut uid env db).1 = some env.now := by
  unfold fullRunOut
  dsimp only
  unfold lastRefreshedAt
  rw [rulesPipeline_settings, find?_setLastRefreshed]
  have hens : (ensuredDB uid env db).automation_settings =
      ensureSettings uid env.now db.automation_settings := rfl
  rw [hens, find?_ensureSettings]
  simp

theorem refresh_ok_last (uid : Nat) (env : Env) (db db1 : DBState) (r : RefreshResult)
    (h : refresh_management_signals (some uid) env db = (db1, Except.ok r)) :
    lastRefreshedAt uid db1 = some r.refreshed_at ∧ r.refreshed_at.day = env.now.day := by
  cases hg : dailyGuardHitB uid env db with
  | true =>
    unfold dailyGuardHitB at hg
    cases hl : lastRefreshedAt uid db with
    | none => rw [hl] at hg; cases hg
    | some t =>
      rw [hl] at hg
      have hday : t.day = env.now.day := by simpa using hg
      rw [refresh_guard_eq uid env db t hl hday] at h
      simp only [Prod.mk.injEq, Except.ok.injEq] at h
      obtain ⟨hdb, hr⟩ := h
      subst hdb
      rw [← hr]
      exact ⟨hl, hday⟩
  | false =>
    rw [refresh_noGuard_eq uid env db hg] at h
    unfold fullRunOut at h
    simp only [Prod.mk.injEq, Except.ok.injEq] at h
    obtain ⟨hdb, hr⟩ := h
    have hfull := lastRefreshedAt_fullRun uid env db
    unfold fullRunOut at hfull
    rw [hdb] at hfull
    rw [← hr]
    exact ⟨hfull, rfl⟩

/-! ## Claim C1 -/

/-- Claim C1: after a call that succeeded, a second call of the same
owner on the same calendar day returns zero counts together with the
timestamp stored by the first call, and leaves the whole stored state
exactly as the first call left it. -/
theorem refresh_same_day_idempotent (auth : Option Nat) (env1 env2 : Env)
    (db db1 : DBState) (r1 : RefreshResult)
    (h1 : refresh_management_signals auth env1 db = (db1, Except.ok r1))
    (hday : env2.now.day = env1.now.day) :
    refresh_management_signals auth env2 db1 =
      (db1, Except.ok { generated_tasks := 0, generated_notifications := 0
                        refreshed_at := r1.refreshed_at }) := by
  cases auth with
  | none =>
    have hnone : refresh_management_signals none env1 db =
        (db, Except.error RefreshError.notAuthenticated) := rfl
    rw [hnone] at h1
    simp at h1
  | some uid =>
    obtain ⟨hlast, hdayr⟩ := refresh_ok_last uid env1 db db1 r1 h1
    exact refresh_guard_eq uid env2 db1 r1.refreshed_at hlast (hdayr.trans hday.symm)

/-- Invocation context of day 100 used by the concrete witnesses. -/
def envAW : Env := { now := ⟨100, 5⟩, monthStart := 90, nextMonthStart := 120 }

/-- A later invocation context on the same calendar day. -/
def envBW : Env := { now := ⟨100, 9⟩, monthStart := 90, nextMonthStart := 120 }

/-- The empty stored state. -/
def dbEmptyW : DBState :=
  { clients := [], attendance := [], payments := [], follow_up_tasks := []
    notifications := [], automation_settings := [] }

/-- Witness for C1: a fresh owner refreshes, then calls again later the
same day and gets the zero result with the stored timestamp. -/
theorem refresh_same_day_idempotent_witness :
    refresh_management_signals (some 7) envBW
        (refresh_management_signals (some 7) envAW dbEmptyW).1 =
      ((refresh_management_signals (some 7) envAW dbEmptyW).1,
        Except.ok { generated_tasks := 0, generated_notifications := 0
                    refreshed_at := ⟨100, 5⟩ }) :=
  refresh_same_day_idempotent (some 7) envAW envBW dbEmptyW
    (refresh_management_signals (some 7) envAW dbEmptyW).1
    { generated_tasks := 0, generated_notifications := 0, refreshed_at := ⟨100, 5⟩ }
    (by rfl) rfl

/-! ## Claim C9 -/

/-- The number of findings the enabled rules emit against the starting
state of a run. -/
def totalSignals (uid : Nat) (env : Env) (db : DBState) : Nat :=
  (if (settingsOf uid env db).no_show_risk_enabled then
      (noShowSignals uid env.today (settingsOf uid env db).no_show_threshold
        db.clients db.attendance).length else 0) +
  ((if (settingsOf uid env db).attendance_drop_enabled then
      (attendanceDropSignals uid env.today (settingsOf uid env db).attendance_drop_ratio
        db.clients db.attendance).length else 0) +
   (if (settingsOf uid env db).pending_unpaid_risk_enabled then
      (pendingUnpaidSignals uid env.monthStart env.nextMonthStart
        (settingsOf uid env db).pending_lessons_threshold db.clients db.attendance
        db.payments).length else 0))

theorem rulesPipeline_count (uid : Nat) (env : Env) (s : AutomationSettings) (db0 : DBState) :
    (rulesPipeline uid env s db0).2 =
      (if s.no_show_risk_enabled then
          (noShowSignals uid env.today s.no_show_threshold db0.clients db0.attendance).length
        else 0) +
      ((if s.attendance_drop_enabled then
          (attendanceDropSignals uid env.today s.attendance_drop_ratio
            db0.clients db0.attendance).length else 0) +
       (if s.pending_unpaid_risk_enabled then
          (pendingUnpaidSignals uid env.monthStart env.nextMonthStart
            s.pending_lessons_threshold db0.clients db0.attendance db0.payments).length
        else 0)) := by
  unfold rulesPipeline
  dsimp only
  rw [applySignals_clients, applySignals_attendance, applySignals_clients,
    applySignals_attendance, applySignals_payments, applySignals_clients,
    applySignals_attendance, applySignals_payments]
  cases s.no_show_risk_enabled <;> cases s.attendance_drop_enabled <;>
    cases s.pending_unpaid_risk_enabled <;> simp

/-- Claim C9: a successful run past the daily guard returns equal task
and notification counters, both equal to the number of findings of the
enabled rules, each upsert contributing exactly one affected row. -/
theorem refresh_counts_equal_findings (uid : Nat) (env : Env) (db db1 : DBState)
    (r : RefreshResult)
    (hguard : dailyGuardHitB uid env db = false)
    (hrun : refresh_management_signals (some uid) env db = (db1, Except.ok r)) :
    r.generated_tasks = r.generated_notifications ∧
    r.generated_tasks = totalSignals uid env db ∧
    r.refreshed_at = env.now := by
  rw [refresh_noGuard_eq uid env db hguard] at hrun
  unfold fullRunOut at hrun
  simp only [Prod.mk.injEq, Except.ok.injEq] at hrun
  obtain ⟨hdb, hr⟩ := hrun
  rw [← hr]
  refine ⟨rfl, ?_, rfl⟩
  rw [rulesPipeline_count]
  rfl

/-- Settings row of owner 7 with only the no-show rule enabled. -/
def setNoShowOnlyW : AutomationSettings :=
  { user_id := 7, no_show_risk_enabled := true, attendance_drop_enabled := false
    pending_unpaid_risk_enabled := false, no_show_threshold := 2
    pending_lessons_threshold := 4, attendance_drop_ratio := 1
    last_refreshed_at := none, created_at := ⟨0, 0⟩, updated_at := ⟨0, 0⟩ }

/-- A stored state with one inactive client of owner 7 who has two
no-show records inside the trailing window of day 100. -/
def dbNoShowW : DBState :=
  { clients := [{ id := 1, user_id := 7, full_name := "A", is_active := false }]
    attendance :=
      [{ user_id := 7, client_id := 1, session_date := 95, status := "no_show" },
       { user_id := 7, client_id := 1, session_date := 96, status := "no_show" }]
    payments := [], follow_up_tasks := [], notifications := []
    automation_settings := [setNoShowOnlyW] }

/-- Witness for C9: the no-show run of owner 7 yields one finding and
the counters (1, 1). -/
theorem refresh_counts_equal_findings_witness :
    (1 : Nat) = (1 : Nat) ∧ (1 : Nat) = totalSignals 7 envAW dbNoShowW ∧
      (⟨100, 5⟩ : Timestamptz) = envAW.now :=
  refresh_counts_equal_findings 7 envAW dbNoShowW
    (refresh_management_signals (some 7) envAW dbNoShowW).1
    { generated_tasks := 1, generated_notifications := 1, refreshed_at := ⟨100, 5⟩ }
    (by rfl) (by rfl)

/-! ## Natural-key row counts -/

/-- Test of a follow_up_tasks row against a natural key. -/
def taskKeyB (uid cid : Nat) (rk : String) (dd : Int) (r : FollowUpTask) : Bool :=
  r.user_id == uid && r.client_id == cid && r.rule_key == rk && r.due_date == dd

/-- Test of a notifications row against a natural key. -/
def notifKeyB (uid cid : Nat) (ty : String) (dd : Int) (r : Notification) : Bool :=
  r.user_id == uid && r.client_id == cid && r.type == ty && r.created_for_date == dd

/-- Number of stored task rows carrying a natural key. -/
def countTasksKey (uid cid : Nat) (rk : String) (dd : Int) (l : List FollowUpTask) : Nat :=
  (l.filter (taskKeyB uid cid rk dd)).length

/-- Number of stored notification rows carrying a natural key. -/
def countNotifsKey (uid cid : Nat) (ty : String) (dd : Int) (l : List Notification) : Nat :=
  (l.filter (notifKeyB uid cid ty dd)).length

theorem countTasksKey_cons (uid cid : Nat) (rk : String) (dd : Int)
    (x : FollowUpTask) (xs : List FollowUpTask) :
    countTasksKey uid cid rk dd (x :: xs) =
      (if taskKeyB uid cid rk dd x = true then 1 else 0) + countTasksKey uid cid rk dd xs := by
  by_cases h : taskKeyB uid cid rk dd x = true <;>
    simp [countTasksKey, List.filter_cons, h, Nat.add_comm]

theorem taskKeyB_conflictUpdate (uid cid : Nat) (rk : String) (dd : Int)
    (t : TaskInsert) (now : Timestamptz) (r : FollowUpTask) :
    taskKeyB uid cid rk dd (conflictUpdateTask t now r) = taskKeyB uid cid rk dd r := rfl

theorem taskKeyB_of_conflict (uid cid : Nat) (rk : String) (dd : Int)
    (t : TaskInsert) (now : Timestamptz) (r : FollowUpTask)
    (hc : taskConflicts t r = true) :
    taskKeyB uid cid rk dd r = taskKeyB uid cid rk dd (insertTaskRow t now) := by
  simp only [taskConflicts, Bool.and_eq_true, beq_iff_eq] at hc
  obtain ⟨⟨⟨h1, h2⟩, h3⟩, h4⟩ := hc
  simp [taskKeyB, insertTaskRow, h1, h2, h3, h4]

theorem taskConflicts_of_keys (uid cid : Nat) (rk : String) (dd : Int)
    (t : TaskInsert) (now : Timestamptz) (r : FollowUpTask)
    (h1 : taskKeyB uid cid rk dd r = true)
    (h2 : taskKeyB uid cid rk dd (insertTaskRow t now) = true) :
    taskConflicts t r = true := by
  simp only [taskKeyB, insertTaskRow, Bool.and_eq_true, beq_iff_eq] at h1 h2
  simp [taskConflicts, h1.1.1.1, h1.1.1.2, h1.1.2, h1.2, h2.1.1.1, h2.1.1.2, h2.1.2, h2.2]

theorem countTasksKey_upsert (uid cid : Nat) (rk : String) (dd : Int)
    (t : TaskInsert) (now : Timestamptz) :
    ∀ l : List FollowUpTask,
      countTasksKey uid cid rk dd (upsertFollowUpTask t now l) =
        if taskKeyB uid cid rk dd (insertTaskRow t now) = true then
          (if countTasksKey uid cid rk dd l = 0 then 1 else countTasksKey uid cid rk dd l)
        else countTasksKey uid cid rk dd l
  | [] => by
    by_cases h : taskKeyB uid cid rk dd (insertTaskRow t now) = true <;>
      simp [upsertFollowUpTask, countTasksKey, List.filter, h]
  | x :: xs => by
    by_cases hc : taskConflicts t x = true
    · have hkeq := taskKeyB_of_conflict uid cid rk dd t now x hc
      simp only [upsertFollowUpTask, hc, if_true, countTasksKey_cons, taskKeyB_conflictUpdate]
      rw [← hkeq]
      by_cases hk : taskKeyB uid cid rk dd x = true <;> simp [hk]
    · have hc2 : taskConflicts t x = false := by simpa using hc
      simp only [upsertFollowUpTask, hc2, Bool.false_eq_true, if_false, countTasksKey_cons]
      rw [countTasksKey_upsert uid cid rk dd t now xs]
      by_cases hki : taskKeyB uid cid rk dd (insertTaskRow t now) = true
      · have hkx : taskKeyB uid cid rk dd x = false := by
          by_contra hx
          have hx2 : taskKeyB uid cid rk dd x = true := by simpa using hx
          rw [taskConflicts_of_keys uid cid rk dd t now x hx2 hki] at hc2
          cases hc2
        simp only [hki, if_true, hkx, Bool.false_eq_true, if_false]
        by_cases h0 : countTasksKey uid cid rk dd xs = 0 <;> simp [h0]
      · have hki2 : taskKeyB uid cid rk dd (insertTaskRow t now) = false := by simpa using hki
        simp [hki2]

theorem countNotifsKey_cons (uid cid : Nat) (ty : String) (dd : Int)
    (x : Notification) (xs : List Notification) :
    countNotifsKey uid cid ty dd (x :: xs) =
      (if notifKeyB uid cid ty dd x = true then 1 else 0) + countNotifsKey uid cid ty dd xs := by
  by_cases h : notifKeyB uid cid ty dd x = true <;>
    simp [countNotifsKey, List.filter_cons, h, Nat.add_comm]

theorem notifKeyB_conflictUpdate (uid cid : Nat) (ty : String) (dd : Int)
    (n : NotificationInsert) (r : Notification) :
    notifKeyB uid cid ty dd (conflictUpdateNotification n r) = notifKeyB uid cid ty dd r := rfl

theorem notifKeyB_of_conflict (uid cid : Nat) (ty : String) (dd : Int)
    (n : NotificationInsert) (r : Notification)
    (hc : notifConflicts n r = true) :
    notifKeyB uid cid ty dd r = notifKeyB uid cid ty dd (insertNotificationRow n) := by
  simp only [notifConflicts, Bool.and_eq_true, beq_iff_eq] at hc
  obtain ⟨⟨⟨h1, h2⟩, h3⟩, h4⟩ := hc
  simp [notifKeyB, insertNotificationRow, h1, h2, h3, h4]

theorem notifConflicts_of_keys (uid cid : Nat) (ty : String) (dd : Int)
    (n : NotificationInsert) (r : Notification)
    (h1 : notifKeyB uid cid ty dd r = true)
    (h2 : notifKeyB uid cid ty dd (insertNotificationRow n) = true) :
    notifConflicts n r = true := by
  simp only [notifKeyB, insertNotificationRow, Bool.and_eq_true, beq_iff_eq] at h1 h2
  simp [notifConflicts, h1.1.1.1, h1.1.1.2, h1.1.2, h1.2, h2.1.1.1, h2.1.1.2, h2.1.2, h2.2]

theorem countNotifsKey_upsert (uid cid : Nat) (ty : String) (dd : Int)
    (n : NotificationInsert) :
    ∀ l : List Notification,
      countNotifsKey uid cid ty dd (upsertNotification n l) =
        if notifKeyB uid cid ty dd (insertNotificationRow n) = true then
          (if countNotifsKey uid cid ty dd l = 0 then 1 else countNotifsKey uid cid ty dd l)
        else countNotifsKey uid cid ty dd l
  | [] => by
    by_cases h : notifKeyB uid cid ty dd (insertNotificationRow n) = true <;>
      simp [upsertNotification, countNotifsKey, List.filter, h]
  | x :: xs => by
    by_cases hc : notifConflicts n x = true
    · have hkeq := notifKeyB_of_conflict uid cid ty dd n x hc
      simp only [upsertNotification, hc, if_true, countNotifsKey_cons, notifKeyB_conflictUpdate]
      rw [← hkeq]
      by_cases hk : notifKeyB uid cid ty dd x = true <;> simp [hk]
    · have hc2 : notifConflicts n x = false := by simpa using hc
      simp only [upsertNotification, hc2, Bool.false_eq_true, if_false, countNotifsKey_cons]
      rw [countNotifsKey_upsert uid cid ty dd n xs]
      by_cases hki : notifKeyB uid cid ty dd (insertNotificationRow n) = true
      · have hkx : notifKeyB uid cid ty dd x = false := by
          by_contra hx
          have hx2 : notifKeyB uid cid ty dd x = true := by simpa using hx
          rw [notifConflicts_of_keys uid cid ty dd n x hx2 hki] at hc2
          cases hc2
        simp only [hki, if_true, hkx, Bool.false_eq_true, if_false]
        by_cases h0 : countNotifsKey uid cid ty dd xs = 0 <;> simp [h0]
      · have hki2 : notifKeyB uid cid ty dd (insertNotificationRow n) = false := by simpa using hki
        simp [hki2]

/-! ## The loop effects on the two signal stores -/

/-- The task upserts of a loop, in order. -/
def tasksFold (uid : Nat) (env : Env) : List Signal → List FollowUpTask → List FollowUpTask
  | [], l => l
  | sg :: rest, l =>
    tasksFold uid env rest
      (upsertFollowUpTask (signalTaskInsert uid env.today env.now sg) env.now l)

/-- The notification upserts of a loop, in order. -/
def notifsFold (uid : Nat) (env : Env) : List Signal → List Notification → List Notification
  | [], l => l
  | sg :: rest, l =>
    notifsFold uid env rest
      (upsertNotification (signalNotificationInsert uid env.today env.now sg) l)

theorem applySignals_tasks (uid : Nat) (env : Env) :
    ∀ (L : List Signal) (db : DBState),
      (applySignals uid env L db).follow_up_tasks = tasksFold uid env L db.follow_up_tasks
  | [], db => rfl
  | sg :: rest, db => by
    simp only [applySignals, tasksFold]
    exact applySignals_tasks uid env rest (applySignal uid env sg db)

theorem applySignals_notifs (uid : Nat) (env : Env) :
    ∀ (L : List Signal) (db : DBState),
      (applySignals uid env L db).notifications = notifsFold uid env L db.notifications
  | [], db => rfl
  | sg :: rest, db => by
    simp only [applySignals, notifsFold]
    exact applySignals_notifs uid env rest (applySignal uid env sg db)

theorem countTasksKey_tasksFold (uid cid : Nat) (rk : String) (dd : Int)
    (u0 : Nat) (env : Env) :
    ∀ (L : List Signal) (l : List FollowUpTask),
      countTasksKey uid cid rk dd (tasksFold u0 env L l) =
        if (L.any fun sg =>
              taskKeyB uid cid rk dd
                (insertTaskRow (signalTaskInsert u0 env.today env.now sg) env.now)) = true then
          (if countTasksKey uid cid rk dd l = 0 then 1 else countTasksKey uid cid rk dd l)
        else countTasksKey uid cid rk dd l
  | [], l => by simp [tasksFold]
  | sg :: rest, l => by
    simp only [tasksFold, List.any_cons]
    rw [countTasksKey_tasksFold uid cid rk dd u0 env rest _,
      countTasksKey_upsert]
    by_cases h1 : taskKeyB uid cid rk dd
        (insertTaskRow (signalTaskInsert u0 env.today env.now sg) env.now) = true
    · by_cases h0 : countTasksKey uid cid rk dd l = 0 <;>
        simp [h1, h0]
    · have h1f : taskKeyB uid cid rk dd
          (insertTaskRow (signalTaskInsert u0 env.today env.now sg) env.now) = false := by
        simpa using h1
      simp [h1f]

theorem countNotifsKey_notifsFold (uid cid : Nat) (ty : String) (dd : Int)
    (u0 : Nat) (env : Env) :
    ∀ (L : List Signal) (l : List Notification),
      countNotifsKey uid cid ty dd (notifsFold u0 env L l) =
        if (L.any fun sg =>
              notifKeyB uid cid ty dd
                (insertNotificationRow (signalNotificationInsert u0 env.today env.now sg))) = true then
          (if countNotifsKey uid cid ty dd l = 0 then 1 else countNotifsKey uid cid ty dd l)
        else countNotifsKey uid cid ty dd l
  | [], l => by simp [notifsFold]
  | sg :: rest, l => by
    simp only [notifsFold, List.any_cons]
    rw [countNotifsKey_notifsFold uid cid ty dd u0 env rest _,
      countNotifsKey_upsert]
    by_cases h1 : notifKeyB uid cid ty dd
        (insertNotificationRow (signalNotificationInsert u0 env.today env.now sg)) = true
    · by_cases h0 : countNotifsKey uid cid ty dd l = 0 <;>
        simp [h1, h0]
    · have h1f : notifKeyB uid cid ty dd
          (insertNotificationRow (signalNotificationInsert u0 env.today env.now sg)) = false := by
        simpa using h1
      simp [h1f]

theorem taskKeyB_signal (uid cid : Nat) (rk : String) (dd : Int) (u0 : Nat) (env : Env)
    (sg : Signal) :
    taskKeyB uid cid rk dd (insertTaskRow (signalTaskInsert u0 env.today env.now sg) env.now) =
      ((u0 == uid) && (sg.client_id == cid) && (sg.rule_key == rk) && (env.today == dd)) := rfl

theorem notifKeyB_signal (uid cid : Nat) (ty : String) (dd : Int) (u0 : Nat) (env : Env)
    (sg : Signal) :
    notifKeyB uid cid ty dd (insertNotificationRow (signalNotificationInsert u0 env.today env.now sg)) =
      taskKeyB uid cid ty dd (insertTaskRow (signalTaskInsert u0 env.today env.now sg) env.now) := rfl

theorem noShowSignal?_fields (uid : Nat) (today : Int) (thr : Int) (atts : List Attendance)
    (c : Client) (sg : Signal) (h : noShowSignal? uid today thr atts c = some sg) :
    sg.client_id = c.id ∧ sg.rule_key = "no_show_risk" ∧ sg.priority = "high" := by
  unfold noShowSignal? at h
  dsimp only at h
  split at h
  · simp only [Option.some.injEq] at h
    subst h
    exact ⟨rfl, rfl, rfl⟩
  · cases h

theorem noShowSignal?_isSome (uid : Nat) (today : Int) (thr : Int) (atts : List Attendance)
    (c : Client) :
    (noShowSignal? uid today thr atts c).isSome = true ↔
      (0 < noShowCount28 uid today atts c.id ∧
        thr ≤ (noShowCount28 uid today atts c.id : Int)) := by
  unfold noShowSignal?
  dsimp only
  split
  next h => simpa using h
  next h => simpa using h

theorem attendanceDropSignal?_fields (uid : Nat) (today : Int) (ratio : Rat)
    (atts : List Attendance) (c : Client) (sg : Signal)
    (h : attendanceDropSignal? uid today ratio atts c = some sg) :
    sg.rule_key = "attendance_drop" := by
  unfold attendanceDropSignal? at h
  dsimp only at h
  split at h
  · split at h
    · simp only [Option.some.injEq] at h
      subst h
      rfl
    · cases h
  · cases h

theorem pendingUnpaidSignal?_fields (uid : Nat) (monthStart nextMonthStart threshold : Int)
    (clients : List Client) (atts : List Attendance) (p : Payment) (sg : Signal)
    (h : pendingUnpaidSignal? uid monthStart nextMonthStart threshold clients atts p = some sg) :
    sg.rule_key = "pending_unpaid_risk" := by
  unfold pendingUnpaidSignal? at h
  dsimp only at h
  split at h
  · split at h
    · split at h
      · simp only [Option.some.injEq] at h
        subst h
        rfl
      · cases h
    · cases h
  · cases h

theorem noShow_any_taskKey (uid : Nat) (env : Env) (thr : Int) (clients : List Client)
    (atts : List Attendance) (c : Client) (hc : c ∈ clients) (hcu : c.user_id = uid)
    (hthr : 1 ≤ thr) :
    ((noShowSignals uid env.today thr clients atts).any fun sg =>
        taskKeyB uid c.id "no_show_risk" env.today
          (insertTaskRow (signalTaskInsert uid env.today env.now sg) env.now)) =
      decide (thr ≤ (noShowCount28 uid env.today atts c.id : Int)) := by
  by_cases hcond : thr ≤ (noShowCount28 uid env.today atts c.id : Int)
  · have h0 : 0 < noShowCount28 uid env.today atts c.id := by omega
    rw [decide_eq_true hcond, List.any_eq_true]
    obtain ⟨sg, hsg⟩ : ∃ sg, noShowSignal? uid env.today thr atts c = some sg :=
      Option.isSome_iff_exists.mp
        ((noShowSignal?_isSome uid env.today thr atts c).mpr ⟨h0, hcond⟩)
    refine ⟨sg, ?_, ?_⟩
    · unfold noShowSignals
      exact List.mem_filterMap.mpr ⟨c, List.mem_filter.mpr ⟨hc, by simp [hcu]⟩, hsg⟩
    · obtain ⟨hcid, hrk, _⟩ := noShowSignal?_fields uid env.today thr atts c sg hsg
      rw [taskKeyB_signal]
      simp [hcid, hrk]
  · rw [decide_eq_false hcond, List.any_eq_false]
    intro sg hsg
    unfold noShowSignals at hsg
    obtain ⟨c2, hc2, hsome⟩ := List.mem_filterMap.mp hsg
    obtain ⟨hcid, hrk, _⟩ := noShowSignal?_fields uid env.today thr atts c2 sg hsome
    rw [taskKeyB_signal]
    intro hkey
    simp only [Bool.and_eq_true, beq_iff_eq] at hkey
    have hcnt := ((noShowSignal?_isSome uid env.today thr atts c2).mp (by rw [hsome]; rfl)).2
    have hid : c2.id = c.id := by rw [← hcid]; exact hkey.1.1.2
    rw [hid] at hcnt
    exact hcond hcnt

theorem any_taskKey_false_of_rule_key (uid cid : Nat) (rk : String) (dd : Int)
    (u0 : Nat) (env : Env) (L : List Signal) (rk0 : String)
    (hL : ∀ sg ∈ L, sg.rule_key = rk0) (hne : (rk0 == rk) = false) :
    (L.any fun sg => taskKeyB uid cid rk dd
        (insertTaskRow (signalTaskInsert u0 env.today env.now sg) env.now)) = false := by
  rw [List.any_eq_false]
  intro sg hsg
  rw [taskKeyB_signal]
  simp [hL sg hsg, hne]

theorem mem_upsertFollowUpTask (t : TaskInsert) (now : Timestamptz) :
    ∀ (l : List FollowUpTask) (r2 : FollowUpTask), r2 ∈ upsertFollowUpTask t now l →
      r2 = insertTaskRow t now ∨
      (∃ r, r ∈ l ∧ taskConflicts t r = true ∧ r2 = conflictUpdateTask t now r) ∨
      r2 ∈ l
  | [], r2, h => by
    simp only [upsertFollowUpTask, List.mem_singleton] at h
    exact Or.inl h
  | x :: xs, r2, h => by
    by_cases hc : taskConflicts t x = true
    · simp only [upsertFollowUpTask, hc, if_true, List.mem_cons] at h
      rcases h with h | h
      · exact Or.inr (Or.inl ⟨x, List.mem_cons_self x xs, hc, h⟩)
      · exact Or.inr (Or.inr (List.mem_cons_of_mem x h))
    · have hc2 : taskConflicts t x = false := by simpa using hc
      simp only [upsertFollowUpTask, hc2, Bool.false_eq_true, if_false, List.mem_cons] at h
      rcases h with h | h
      · exact Or.inr (Or.inr (by simp [h]))
      · rcases mem_upsertFollowUpTask t now xs r2 h with h1 | ⟨r, hr, hcr, he⟩ | h3
        · exact Or.inl h1
        · exact Or.inr (Or.inl ⟨r, List.mem_cons_of_mem x hr, hcr, he⟩)
        · exact Or.inr (Or.inr (List.mem_cons_of_mem x h3))

/-- Every stored task row carrying the given no-show natural key has
high priority and open status. -/
def noShowTaskInv (uid cid : Nat) (dd : Int) (l : List FollowUpTask) : Prop :=
  ∀ tk ∈ l, taskKeyB uid cid "no_show_risk" dd tk = true →
    tk.priority = "high" ∧ tk.status = "open"

theorem noShowTaskInv_upsert (uid cid : Nat) (dd : Int) (t : TaskInsert) (now : Timestamptz)
    (l : List FollowUpTask) (hinv : noShowTaskInv uid cid dd l)
    (ht : taskKeyB uid cid "no_show_risk" dd (insertTaskRow t now) = true →
      t.priority = "high" ∧ t.status = "open") :
    noShowTaskInv uid cid dd (upsertFollowUpTask t now l) := by
  intro tk hmem hkey
  rcases mem_upsertFollowUpTask t now l tk hmem with h1 | ⟨r, hr, hcr, he⟩ | h3
  · subst h1
    obtain ⟨hp, hs⟩ := ht hkey
    exact ⟨hp, hs⟩
  · subst he
    rw [taskKeyB_conflictUpdate] at hkey
    have hkins : taskKeyB uid cid "no_show_risk" dd (insertTaskRow t now) = true := by
      rw [← taskKeyB_of_conflict uid cid "no_show_risk" dd t now r hcr]
      exact hkey
    obtain ⟨hp, _⟩ := ht hkins
    have hstat := (hinv r hr hkey).2
    exact ⟨by simp [conflictUpdateTask, hp], by simp [conflictUpdateTask, hstat]⟩
  · exact hinv tk h3 hkey

theorem noShowTaskInv_tasksFold (uid cid : Nat) (dd : Int) (u0 : Nat) (env : Env) :
    ∀ (L : List Signal) (l : List FollowUpTask),
      noShowTaskInv uid cid dd l →
      (∀ sg ∈ L, taskKeyB uid cid "no_show_risk" dd
          (insertTaskRow (signalTaskInsert u0 env.today env.now sg) env.now) = true →
        sg.priority = "high") →
      noShowTaskInv uid cid dd (tasksFold u0 env L l)
  | [], l, hinv, _ => hinv
  | sg :: rest, l, hinv, hsig => by
    refine noShowTaskInv_tasksFold uid cid dd u0 env rest _ ?_ ?_
    · refine noShowTaskInv_upsert uid cid dd _ env.now l hinv ?_
      intro hkey
      exact ⟨hsig sg (List.mem_cons_self sg rest) hkey, rfl⟩
    · intro sg2 h2 hk2
      exact hsig sg2 (List.mem_cons_of_mem sg h2) hk2

theorem countTasksKey_zero_inv (uid cid : Nat) (dd : Int) (l : List FollowUpTask)
    (h : countTasksKey uid cid "no_show_risk" dd l = 0) :
    noShowTaskInv uid cid dd l := by
  intro tk hmem hkey
  exfalso
  unfold countTasksKey at h
  rw [List.length_eq_zero] at h
  have := List.filter_eq_nil_iff.mp h tk hmem
  rw [hkey] at this
  exact this rfl

/-- The findings of the first (no-show) rule block of a run. -/
def pipeL1 (uid : Nat) (env : Env) (s : AutomationSettings) (db0 : DBState) : List Signal :=
  if s.no_show_risk_enabled then
    noShowSignals uid env.today s.no_show_threshold db0.clients db0.attendance else []

/-- The findings of the second (attendance-drop) rule block of a run,
read against the state that block sees. -/
def pipeL2 (uid : Nat) (env : Env) (s : AutomationSettings) (db0 : DBState) : List Signal :=
  if s.attendance_drop_enabled then
    attendanceDropSignals uid env.today s.attendance_drop_ratio
      (applySignals uid env (pipeL1 uid env s db0) db0).clients
      (applySignals uid env (pipeL1 uid env s db0) db0).attendance
  else []

/-- The findings of the third (pending-unpaid) rule block of a run, read
against the state that block sees. -/
def pipeL3 (uid : Nat) (env : Env) (s : AutomationSettings) (db0 : DBState) : List Signal :=
  if s.pending_unpaid_risk_enabled then
    pendingUnpaidSignals uid env.monthStart env.nextMonthStart s.pending_lessons_threshold
      (applySignals uid env (pipeL2 uid env s db0)
        (applySignals uid env (pipeL1 uid env s db0) db0)).clients
      (applySignals uid env (pipeL2 uid env s db0)
        (applySignals uid env (pipeL1 uid env s db0) db0)).attendance
      (applySignals uid env (pipeL2 uid env s db0)
        (applySignals uid env (pipeL1 uid env s db0) db0)).payments
  else []

theorem rulesPipeline_tasks (uid : Nat) (env : Env) (s : AutomationSettings) (db0 : DBState) :
    (rulesPipeline uid env s db0).1.follow_up_tasks =
      tasksFold uid env (pipeL3 uid env s db0)
        (tasksFold uid env (pipeL2 uid env s db0)
          (tasksFold uid env (pipeL1 uid env s db0) db0.follow_up_tasks)) := by
  unfold rulesPipeline
  dsimp only
  rw [applySignals_tasks, applySignals_tasks, applySignals_tasks]
  rfl

theorem rulesPipeline_notifs (uid : Nat) (env : Env) (s : AutomationSettings) (db0 : DBState) :
    (rulesPipeline uid env s db0).1.notifications =
      notifsFold uid env (pipeL3 uid env s db0)
        (notifsFold uid env (pipeL2 uid env s db0)
          (notifsFold uid env (pipeL1 uid env s db0) db0.notifications)) := by
  unfold rulesPipeline
  dsimp only
  rw [applySignals_notifs, applySignals_notifs, applySignals_notifs]
  rfl

theorem mem_noShowSignals (uid : Nat) (today : Int) (thr : Int) (clients : List Client)
    (atts : List Attendance) (sg : Signal) (h : sg ∈ noShowSignals uid today thr clients atts) :
    sg.rule_key = "no_show_risk" ∧ sg.priority = "high" := by
  unfold noShowSignals at h
  obtain ⟨c2, _, hsome⟩ := List.mem_filterMap.mp h
  obtain ⟨_, hrk, hp⟩ := noShowSignal?_fields uid today thr atts c2 sg hsome
  exact ⟨hrk, hp⟩

theorem pipeL1_fields (uid : Nat) (env : Env) (s : AutomationSettings) (db0 : DBState) :
    ∀ sg ∈ pipeL1 uid env s db0, sg.rule_key = "no_show_risk" ∧ sg.priority = "high" := by
  intro sg hsg
  unfold pipeL1 at hsg
  split at hsg
  · exact mem_noShowSignals uid env.today s.no_show_threshold db0.clients db0.attendance sg hsg
  · cases hsg

theorem pipeL2_rule_key (uid : Nat) (env : Env) (s : AutomationSettings) (db0 : DBState) :
    ∀ sg ∈ pipeL2 uid env s db0, sg.rule_key = "attendance_drop" := by
  intro sg hsg
  unfold pipeL2 at hsg
  split at hsg
  · unfold attendanceDropSignals at hsg
    obtain ⟨c2, _, hsome⟩ := List.mem_filterMap.mp hsg
    exact attendanceDropSignal?_fields uid env.today s.attendance_drop_ratio _ c2 sg hsome
  · cases hsg

theorem pipeL3_rule_key (uid : Nat) (env : Env) (s : AutomationSettings) (db0 : DBState) :
    ∀ sg ∈ pipeL3 uid env s db0, sg.rule_key = "pending_unpaid_risk" := by
  intro sg hsg
  unfold pipeL3 at hsg
  split at hsg
  · unfold pendingUnpaidSignals at hsg
    obtain ⟨p, _, hsome⟩ := List.mem_filterMap.mp hsg
    exact pendingUnpaidSignal?_fields uid env.monthStart env.nextMonthStart
      s.pending_lessons_threshold _ _ p sg hsome
  · cases hsg

/-- Claim C2 (amended): with the no-show rule enabled and the guard not
firing, a client of the owner with no prior signal rows for today gets
exactly one high-priority open task with rule key no_show_risk due today
and exactly one matching notification when the no-show count over
[today - 28, today] reaches the threshold, and none otherwise; the
active flag of the client plays no role. -/
theorem no_show_rule_threshold_amended (uid : Nat) (env : Env) (db db1 : DBState)
    (r : RefreshResult) (c : Client)
    (henabled : (settingsOf uid env db).no_show_risk_enabled = true)
    (hthr : 1 ≤ (settingsOf uid env db).no_show_threshold)
    (hguard : dailyGuardHitB uid env db = false)
    (hrun : refresh_management_signals (some uid) env db = (db1, Except.ok r))
    (hc : c ∈ db.clients) (hcu : c.user_id = uid)
    (hfreshT : countTasksKey uid c.id "no_show_risk" env.today db.follow_up_tasks = 0)
    (hfreshN : countNotifsKey uid c.id "no_show_risk" env.today db.notifications = 0) :
    countTasksKey uid c.id "no_show_risk" env.today db1.follow_up_tasks =
      (if (settingsOf uid env db).no_show_threshold ≤
          (noShowCount28 uid env.today db.attendance c.id : Int) then 1 else 0) ∧
    countNotifsKey uid c.id "no_show_risk" env.today db1.notifications =
      (if (settingsOf uid env db).no_show_threshold ≤
          (noShowCount28 uid env.today db.attendance c.id : Int) then 1 else 0) ∧
    (∀ tk ∈ db1.follow_up_tasks,
      taskKeyB uid c.id "no_show_risk" env.today tk = true →
        tk.priority = "high" ∧ tk.status = "open") := by
  rw [refresh_noGuard_eq uid env db hguard] at hrun
  unfold fullRunOut at hrun
  simp only [Prod.mk.injEq, Except.ok.injEq] at hrun
  obtain ⟨hdb, _⟩ := hrun
  have h2any := any_taskKey_false_of_rule_key uid c.id "no_show_risk" env.today uid env
    (pipeL2 uid env (settingsOf uid env db) (ensuredDB uid env db)) "attendance_drop"
    (pipeL2_rule_key uid env (settingsOf uid env db) (ensuredDB uid env db)) (by decide)
  have h3any := any_taskKey_false_of_rule_key uid c.id "no_show_risk" env.today uid env
    (pipeL3 uid env (settingsOf uid env db) (ensuredDB uid env db)) "pending_unpaid_risk"
    (pipeL3_rule_key uid env (settingsOf uid env db) (ensuredDB uid env db)) (by decide)
  have h1any : ((pipeL1 uid env (settingsOf uid env db) (ensuredDB uid env db)).any fun sg =>
      taskKeyB uid c.id "no_show_risk" env.today
        (insertTaskRow (signalTaskInsert uid env.today env.now sg) env.now)) =
      decide ((settingsOf uid env db).no_show_threshold ≤
        (noShowCount28 uid env.today db.attendance c.id : Int)) := by
    unfold pipeL1
    rw [if_pos henabled]
    exact noShow_any_taskKey uid env (settingsOf uid env db).no_show_threshold
      db.clients db.attendance c hc hcu hthr
  refine ⟨?_, ?_, ?_⟩
  · rw [← hdb, rulesPipeline_tasks, countTasksKey_tasksFold, h3any,
      countTasksKey_tasksFold, h2any, countTasksKey_tasksFold, h1any]
    have h0 : countTasksKey uid c.id "no_show_risk" env.today
        (ensuredDB uid env db).follow_up_tasks = 0 := hfreshT
    rw [h0]
    simp only [Bool.false_eq_true, if_false, if_true]
    by_cases hcond : (settingsOf uid env db).no_show_threshold ≤
        (noShowCount28 uid env.today db.attendance c.id : Int) <;>
      simp [hcond]
  · rw [← hdb, rulesPipeline_notifs]
    rw [countNotifsKey_notifsFold]
    simp only [notifKeyB_signal, h3any, Bool.false_eq_true, if_false]
    rw [countNotifsKey_notifsFold]
    simp only [notifKeyB_signal, h2any, Bool.false_eq_true, if_false]
    rw [countNotifsKey_notifsFold]
    simp only [notifKeyB_signal, h1any]
    have h0 : countNotifsKey uid c.id "no_show_risk" env.today
        (ensuredDB uid env db).notifications = 0 := hfreshN
    simp only [h0, if_true]
    by_cases hcond : (settingsOf uid env db).no_show_threshold ≤
        (noShowCount28 uid env.today db.attendance c.id : Int) <;>
      simp [hcond]
  · rw [← hdb, rulesPipeline_tasks]
    refine noShowTaskInv_tasksFold uid c.id env.today uid env _ _ ?_ ?_
    · refine noShowTaskInv_tasksFold uid c.id env.today uid env _ _ ?_ ?_
      · refine noShowTaskInv_tasksFold uid c.id env.today uid env _ _ ?_ ?_
        · exact countTasksKey_zero_inv uid c.id env.today _ hfreshT
        · intro sg hsg _
          exact (pipeL1_fields uid env (settingsOf uid env db) (ensuredDB uid env db) sg hsg).2
      · intro sg hsg hk
        exfalso
        rw [taskKeyB_signal] at hk
        simp [pipeL2_rule_key uid env (settingsOf uid env db) (ensuredDB uid env db) sg hsg] at hk
    · intro sg hsg hk
      exfalso
      rw [taskKeyB_signal] at hk
      simp [pipeL3_rule_key uid env (settingsOf uid env db) (ensuredDB uid env db) sg hsg] at hk

/-- The inactive client of owner 7 stored in the witness state. -/
def cNSW : Client := { id := 1, user_id := 7, full_name := "A", is_active := false }

/-- Counterexample for C2 as stated: the no-show loop joins attendance
to clients without any is_active filter, so an owner whose only client
is inactive and has two no-shows inside the window still gets one task
and one notification from the run, against the stated requirement that
only active clients are flagged. -/
theorem no_show_rule_flags_inactive_client :
    (dbNoShowW.clients.all fun c => c.is_active == false) = true ∧
    countTasksKey 7 1 "no_show_risk" 100
      (refresh_management_signals (some 7) envAW dbNoShowW).1.follow_up_tasks = 1 ∧
    countNotifsKey 7 1 "no_show_risk" 100
      (refresh_management_signals (some 7) envAW dbNoShowW).1.notifications = 1 := by
  refine ⟨rfl, ?_, ?_⟩ <;> rfl

/-- Witness for the amended C2 at the concrete witness state: the count
condition evaluates on owner 7 and client 1. -/
theorem no_show_rule_threshold_amended_witness :
    countTasksKey 7 cNSW.id "no_show_risk" envAW.today
        (refresh_management_signals (some 7) envAW dbNoShowW).1.follow_up_tasks =
      (if (settingsOf 7 envAW dbNoShowW).no_show_threshold ≤
          (noShowCount28 7 envAW.today dbNoShowW.attendance cNSW.id : Int) then 1 else 0) ∧
    countNotifsKey 7 cNSW.id "no_show_risk" envAW.today
        (refresh_management_signals (some 7) envAW dbNoShowW).1.notifications =
      (if (settingsOf 7 envAW dbNoShowW).no_show_threshold ≤
          (noShowCount28 7 envAW.today dbNoShowW.attendance cNSW.id : Int) then 1 else 0) := by
  have h := no_show_rule_threshold_amended 7 envAW dbNoShowW
    (refresh_management_signals (some 7) envAW dbNoShowW).1
    { generated_tasks := 1, generated_notifications := 1, refreshed_at := ⟨100, 5⟩ }
    cNSW rfl (by decide) rfl (by rfl) (by decide) rfl rfl rfl
  exact ⟨h.1, h.2.1⟩

/-! ## Atomicity of the surrounding transaction -/

/-- The settings table of the state carried by a run outcome, committed
or aborted. -/
def exSettings : Except (RefreshError × DBState) RunSt → List AutomationSettings
  | .ok rs => rs.db.automation_settings
  | .error (_, dbp) => dbp.automation_settings

/-- last_refreshed_at of the owner row inside a settings table. -/
def lastOfList (uid : Nat) (l : List AutomationSettings) : Option Timestamptz :=
  (l.find? (fun s => s.user_id == uid)).bind (fun s => s.last_refreshed_at)

theorem lastOfList_ensure (uid : Nat) (now : Timestamptz) (l : List AutomationSettings) :
    lastOfList uid (ensureSettings uid now l) = lastOfList uid l := by
  unfold lastOfList
  rw [find?_ensureSettings]
  cases h : l.find? (fun s => s.user_id == uid) <;> simp [h, defaultSettings]

theorem lastOfList_setLast (uid : Nat) (now : Timestamptz) (l : List AutomationSettings)
    (h : (l.find? (fun s => s.user_id == uid)).isSome = true) :
    lastOfList uid (setLastRefreshed uid now l) = some now := by
  unfold lastOfList
  rw [find?_setLastRefreshed]
  obtain ⟨a, ha⟩ := Option.isSome_iff_exists.mp h
  rw [ha]
  rfl

theorem processSignals_exSettings (faults : Nat → Bool) (uid : Nat) (env : Env) :
    ∀ (L : List Signal) (rs : RunSt),
      exSettings (processSignals faults uid env L rs) = rs.db.automation_settings
  | [], rs => rfl
  | sg :: rest, rs => by
    simp only [processSignals]
    cases h0 : faults rs.stmt
    · simp only [Bool.false_eq_true, if_false]
      cases h1 : faults (rs.stmt + 1)
      · simp only [Bool.false_eq_true, if_false]
        rw [processSignals_exSettings faults uid env rest _]
      · simp [exSettings]
    · simp [exSettings]

theorem runRule_exSettings (faults : Nat → Bool) (uid : Nat) (env : Env) (enabled : Bool)
    (f : DBState → List Signal) (rs : RunSt) :
    exSettings (runRule faults uid env enabled f rs) = rs.db.automation_settings := by
  unfold runRule
  cases enabled
  · rfl
  · cases h : faults rs.stmt
    · simp only [Bool.false_eq_true, if_false, if_true]
      rw [processSignals_exSettings]
    · simp [exSettings]

theorem runRules_ok_settings (faults : Nat → Bool) (uid : Nat) (env : Env)
    (s : AutomationSettings) (db0 db2 : DBState) (r : RefreshResult)
    (h : runRules faults uid env s db0 = .ok (db2, r)) :
    db2.automation_settings = setLastRefreshed uid env.now db0.automation_settings ∧
    r.refreshed_at = env.now := by
  unfold runRules at h
  split at h
  · cases h
  next rs1 heq1 =>
    split at h
    · cases h
    next rs2 heq2 =>
      split at h
      · cases h
      next rs3 heq3 =>
        have e1 : rs1.db.automation_settings = db0.automation_settings := by
          have h2 := runRule_exSettings faults uid env s.no_show_risk_enabled
            (fun d => noShowSignals uid env.today s.no_show_threshold d.clients d.attendance)
            { db := db0, taskCount := 0, notifCount := 0, stmt := 1 }
          rw [heq1] at h2
          exact h2
        have e2 : rs2.db.automation_settings = rs1.db.automation_settings := by
          have h2 := runRule_exSettings faults uid env s.attendance_drop_enabled
            (fun d => attendanceDropSignals uid env.today s.attendance_drop_ratio
              d.clients d.attendance) rs1
          rw [heq2] at h2
          exact h2
        have e3 : rs3.db.automation_settings = rs2.db.automation_settings := by
          have h2 := runRule_exSettings faults uid env s.pending_unpaid_risk_enabled
            (fun d => pendingUnpaidSignals uid env.monthStart env.nextMonthStart
              s.pending_lessons_threshold d.clients d.attendance d.payments) rs2
          rw [heq3] at h2
          exact h2
        unfold finishRefresh at h
        split at h
        · cases h
        · simp only [Except.ok.injEq, Prod.mk.injEq] at h
          obtain ⟨hdb2, hr⟩ := h
          rw [← hdb2, ← hr]
          exact ⟨by simp [e1, e2, e3], rfl⟩

theorem runRules_error_settings (faults : Nat → Bool) (uid : Nat) (env : Env)
    (s : AutomationSettings) (db0 dbp : DBState) (e : RefreshError)
    (h : runRules faults uid env s db0 = .error (e, dbp)) :
    dbp.automation_settings = db0.automation_settings := by
  unfold runRules at h
  split at h
  next e0 heq1 =>
    have h2 := runRule_exSettings faults uid env s.no_show_risk_enabled
      (fun d => noShowSignals uid env.today s.no_show_threshold d.clients d.attendance)
      { db := db0, taskCount := 0, notifCount := 0, stmt := 1 }
    rw [heq1] at h2
    cases h
    exact h2
  next rs1 heq1 =>
    have e1 : rs1.db.automation_settings = db0.automation_settings := by
      have h2 := runRule_exSettings faults uid env s.no_show_risk_enabled
        (fun d => noShowSignals uid env.today s.no_show_threshold d.clients d.attendance)
        { db := db0, taskCount := 0, notifCount := 0, stmt := 1 }
      rw [heq1] at h2
      exact h2
    split at h
    next e0 heq2 =>
      have h2 := runRule_exSettings faults uid env s.attendance_drop_enabled
        (fun d => attendanceDropSignals uid env.today s.attendance_drop_ratio
          d.clients d.attendance) rs1
      rw [heq2] at h2
      cases h
      exact h2.trans e1
    next rs2 heq2 =>
      have e2 : rs2.db.automation_settings = rs1.db.automation_settings := by
        have h2 := runRule_exSettings faults uid env s.attendance_drop_enabled
          (fun d => attendanceDropSignals uid env.today s.attendance_drop_ratio
            d.clients d.attendance) rs1
        rw [heq2] at h2
        exact h2
      split at h
      next e0 heq3 =>
        have h2 := runRule_exSettings faults uid env s.pending_unpaid_risk_enabled
          (fun d => pendingUnpaidSignals uid env.monthStart env.nextMonthStart
            s.pending_lessons_threshold d.clients d.attendance d.payments) rs2
        rw [heq3] at h2
        cases h
        exact h2.trans (e2.trans e1)
      next rs3 heq3 =>
        have e3 : rs3.db.automation_settings = rs2.db.automation_settings := by
          have h2 := runRule_exSettings faults uid env s.pending_unpaid_risk_enabled
            (fun d => pendingUnpaidSignals uid env.monthStart env.nextMonthStart
              s.pending_lessons_threshold d.clients d.attendance d.payments) rs2
          rw [heq3] at h2
          exact h2
        unfold finishRefresh at h
        split at h
        · simp only [Except.error.injEq, Prod.mk.injEq] at h
          rw [← h.2, e3, e2]
          exact e1
        · cases h

/-- Claim C6: any raised error aborts the whole refresh with no partial
writes surviving the transaction, and even inside an aborted body the
stored timestamp is never touched: last_refreshed_at is written only as
the final step of a fully successful run, where it becomes now(). -/
theorem refresh_transaction_atomicity (faults : Nat → Bool) (auth : Option Nat) (env : Env)
    (db : DBState) :
    (∀ e db2, refreshTx faults auth env db = (db2, Except.error e) → db2 = db) ∧
    (∀ uid db2 r, auth = some uid →
      refreshTx faults auth env db = (db2, Except.ok r) →
      dailyGuardHitB uid env db = false →
      lastRefreshedAt uid db2 = some env.now ∧ r.refreshed_at = env.now) ∧
    (∀ uid e dbp, auth = some uid →
      refreshBody faults auth env db = Except.error (e, dbp) →
      lastRefreshedAt uid dbp = lastRefreshedAt uid db) := by
  refine ⟨?_, ?_, ?_⟩
  · intro e db2 h
    unfold refreshTx at h
    split at h
    · simp at h
    · simp only [Prod.mk.injEq] at h
      exact h.1.symm
  · intro uid db2 r hauth h hguard
    subst hauth
    unfold refreshTx at h
    split at h
    case _ db1 r0 heq =>
      simp only [Prod.mk.injEq, Except.ok.injEq] at h
      obtain ⟨hdb2, hr⟩ := h
      unfold refreshBody at heq
      dsimp only at heq
      split at heq
      · cases heq
      · rw [find?_ensureSettings] at heq
        dsimp only at heq
        have hset : (db.automation_settings.find? (fun s2 => s2.user_id == uid)).getD
            (defaultSettings uid env.now) = settingsOf uid env db := rfl
        rw [hset] at heq
        have hlast := settingsOf_last uid env db
        have hok : runRules faults uid env (settingsOf uid env db)
            { db with automation_settings :=
                ensureSettings uid env.now db.automation_settings } =
            Except.ok (db1, r0) := by
          cases hl : lastRefreshedAt uid db with
          | none =>
            rw [hl] at hlast
            rw [hlast] at heq
            dsimp only at heq
            exact heq
          | some t =>
            rw [hl] at hlast
            rw [hlast] at heq
            dsimp only at heq
            have hfalse : (t.day == env.today) = false := by
              have h2 := hguard
              unfold dailyGuardHitB at h2
              rw [hl] at h2
              simpa [Env.today] using h2
            rw [hfalse] at heq
            simpa using heq
        obtain ⟨hs2, hrn⟩ := runRules_ok_settings faults uid env _ _ db1 r0 hok
        constructor
        · rw [← hdb2]
          show lastOfList uid db1.automation_settings = some env.now
          rw [hs2]
          refine lastOfList_setLast uid env.now _ ?_
          show ((ensureSettings uid env.now db.automation_settings).find?
            (fun s => s.user_id == uid)).isSome = true
          rw [find?_ensureSettings]
          rfl
        · rw [← hr]
          exact hrn
    case _ p heq => simp at h
  · intro uid e dbp hauth h
    subst hauth
    unfold refreshBody at h
    dsimp only at h
    split at h
    · simp only [Except.error.injEq, Prod.mk.injEq] at h
      rw [← h.2]
    · rw [find?_ensureSettings] at h
      dsimp only at h
      have hset : (db.automation_settings.find? (fun s2 => s2.user_id == uid)).getD
          (defaultSettings uid env.now) = settingsOf uid env db := rfl
      rw [hset] at h
      have hlast := settingsOf_last uid env db
      have herr : runRules faults uid env (settingsOf uid env db)
          { db with automation_settings :=
              ensureSettings uid env.now db.automation_settings } =
          Except.error (e, dbp) := by
        cases hl : lastRefreshedAt uid db with
        | none =>
          rw [hl] at hlast
          rw [hlast] at h
          dsimp only at h
          exact h
        | some t =>
          rw [hl] at hlast
          rw [hlast] at h
          dsimp only at h
          by_cases hb : (t.day == env.today) = true
          · rw [hb] at h
            simp at h
          · have hb2 : (t.day == env.today) = false := by simpa using hb
            rw [hb2] at h
            simpa using h
      have hsp := runRules_error_settings faults uid env _ _ dbp e herr
      show lastOfList uid dbp.automation_settings = lastOfList uid db.automation_settings
      rw [hsp]
      show lastOfList uid (ensureSettings uid env.now db.automation_settings) =
        lastOfList uid db.automation_settings
      exact lastOfList_ensure uid env.now db.automation_settings

/-- A store that raises at the fourth statement of the run: the
notification upsert of the first finding, after its task upsert wrote. -/
def faultsW : Nat → Bool := fun k => k == 3

/-- The partial state the aborted body carries at that point. -/
def dbNoShowPartialW : DBState :=
  match refreshBody faultsW (some 7) envAW dbNoShowW with
  | .error (_, dbp) => dbp
  | .ok (db1, _) => db1

/-- Witness for C6: with the fault injected after the first task write
the transaction returns the starting state, the aborted partial state
still has the old timestamp, and the fault-free run commits now(). -/
theorem refresh_transaction_atomicity_witness :
    (refreshTx faultsW (some 7) envAW dbNoShowW).1 = dbNoShowW ∧
    lastRefreshedAt 7 dbNoShowPartialW = lastRefreshedAt 7 dbNoShowW ∧
    lastRefreshedAt 7 (refresh_management_signals (some 7) envAW dbNoShowW).1 =
      some envAW.now := by
  have h := refresh_transaction_atomicity faultsW (some 7) envAW dbNoShowW
  have h2 := refresh_transaction_atomicity noFaults (some 7) envAW dbNoShowW
  refine ⟨?_, ?_, ?_⟩
  · exact h.1 RefreshError.storeFailure (refreshTx faultsW (some 7) envAW dbNoShowW).1 (by rfl)
  · exact h.2.2 7 RefreshError.storeFailure dbNoShowPartialW rfl (by rfl)
  · exact (h2.2.1 7 (refresh_management_signals (some 7) envAW dbNoShowW).1
      { generated_tasks := 1, generated_notifications := 1, refreshed_at := ⟨100, 5⟩ }
      rfl (by rfl) rfl).1

/-! ## Cross-owner isolation -/

/-- The rows of one owner across all tables. -/
def restrictDB (uid : Nat) (db : DBState) : DBState :=
  { clients := db.clients.filter (fun c => c.user_id == uid)
    attendance := db.attendance.filter (fun a => a.user_id == uid)
    payments := db.payments.filter (fun p => p.user_id == uid)
    follow_up_tasks := db.follow_up_tasks.filter (fun t => t.user_id == uid)
    notifications := db.notifications.filter (fun n => n.user_id == uid)
    automation_settings := db.automation_settings.filter (fun s => s.user_id == uid) }

theorem filter_and_restrict {α : Type} (p q : α → Bool) :
    ∀ l : List α, l.filter (fun a => p a && q a) = (l.filter p).filter (fun a => p a && q a)
  | [] => rfl
  | x :: xs => by
    cases hp : p x
    · have hpq : (p x && q x) = false := by simp [hp]
      simp only [List.filter_cons, hpq, hp, Bool.false_eq_true, if_false]
      exact filter_and_restrict p q xs
    · cases hq : q x <;>
        simp [List.filter_cons, hp, hq, filter_and_restrict p q xs]

theorem filter_idem {α : Type} (p : α → Bool) :
    ∀ l : List α, (l.filter p).filter p = l.filter p
  | [] => rfl
  | x :: xs => by
    cases hp : p x <;> simp [List.filter_cons, hp, filter_idem p xs]

theorem find?_filter_of_imp {α : Type} (p q : α → Bool) (h : ∀ a, q a = true → p a = true) :
    ∀ l : List α, (l.filter p).find? q = l.find? q
  | [] => rfl
  | x :: xs => by
    cases hq : q x
    · cases hp : p x <;>
        simp [List.filter_cons, hp, List.find?_cons, hq, find?_filter_of_imp p q h xs]
    · have hp := h x hq
      simp [List.filter_cons, hp, List.find?_cons, hq]

theorem any_filter_self {α : Type} (p : α → Bool) :
    ∀ l : List α, (l.filter p).any p = l.any p
  | [] => rfl
  | x :: xs => by
    cases hp : p x <;> simp [List.filter_cons, hp, any_filter_self p xs]

theorem filterMap_restrict {α β : Type} (p : α → Bool) (f : α → Option β)
    (h : ∀ a, p a = false → f a = none) :
    ∀ l : List α, (l.filter p).filterMap f = l.filterMap f
  | [] => rfl
  | x :: xs => by
    cases hp : p x
    · simp only [List.filter_cons, hp, Bool.false_eq_true, if_false]
      rw [filterMap_restrict p f h xs, List.filterMap_cons, h x hp]
    · simp only [List.filter_cons, hp, if_true]
      rw [List.filterMap_cons, List.filterMap_cons, filterMap_restrict p f h xs]

theorem attendanceCountIncl_restrict (uid cid : Nat) (status : String) (lo hi : Int)
    (atts : List Attendance) :
    attendanceCountIncl uid cid status lo hi (atts.filter (fun a => a.user_id == uid)) =
      attendanceCountIncl uid cid status lo hi atts := by
  unfold attendanceCountIncl
  rw [← filter_and_restrict (fun a => a.user_id == uid)
    (fun a => a.client_id == cid && (a.status == status &&
      (decide (lo ≤ a.session_date) && decide (a.session_date ≤ hi)))) atts]

theorem attendanceCountExcl_restrict (uid cid : Nat) (status : String) (lo hi : Int)
    (atts : List Attendance) :
    attendanceCountExcl uid cid status lo hi (atts.filter (fun a => a.user_id == uid)) =
      attendanceCountExcl uid cid status lo hi atts := by
  unfold attendanceCountExcl
  rw [← filter_and_restrict (fun a => a.user_id == uid)
    (fun a => a.client_id == cid && (a.status == status &&
      (decide (lo ≤ a.session_date) && decide (a.session_date < hi)))) atts]

theorem noShowSignal?_restrict (uid : Nat) (today thr : Int) (atts : List Attendance)
    (c : Client) :
    noShowSignal? uid today thr (atts.filter (fun a => a.user_id == uid)) c =
      noShowSignal? uid today thr atts c := by
  unfold noShowSignal? noShowCount28
  rw [attendanceCountIncl_restrict]

theorem noShowSignals_restrict (uid : Nat) (today thr : Int) (clients : List Client)
    (atts : List Attendance) :
    noShowSignals uid today thr (clients.filter (fun c => c.user_id == uid))
        (atts.filter (fun a => a.user_id == uid)) =
      noShowSignals uid today thr clients atts := by
  unfold noShowSignals
  rw [filter_idem]
  have hfn : noShowSignal? uid today thr (atts.filter (fun a => a.user_id == uid)) =
      noShowSignal? uid today thr atts := by
    funext c
    exact noShowSignal?_restrict uid today thr atts c
  rw [hfn]

theorem attendanceDropSignal?_restrict (uid : Nat) (today : Int) (ratio : Rat)
    (atts : List Attendance) (c : Client) :
    attendanceDropSignal? uid today ratio (atts.filter (fun a => a.user_id == uid)) c =
      attendanceDropSignal? uid today ratio atts c := by
  unfold attendanceDropSignal? attendedRecent attendedPrevious
  rw [attendanceCountIncl_restrict, attendanceCountExcl_restrict]

theorem attendanceDropSignals_restrict (uid : Nat) (today : Int) (ratio : Rat)
    (clients : List Client) (atts : List Attendance) :
    attendanceDropSignals uid today ratio (clients.filter (fun c => c.user_id == uid))
        (atts.filter (fun a => a.user_id == uid)) =
      attendanceDropSignals uid today ratio clients atts := by
  unfold attendanceDropSignals
  have hfn : attendanceDropSignal? uid today ratio (atts.filter (fun a => a.user_id == uid)) =
      attendanceDropSignal? uid today ratio atts := by
    funext c
    exact attendanceDropSignal?_restrict uid today ratio atts c
  rw [hfn]
  refine filterMap_restrict (fun c => c.user_id == uid) _ ?_ clients
  intro c hc
  unfold attendanceDropSignal?
  have : (c.user_id == uid && c.is_active) = false := by simp [hc]
  rw [this]
  simp

theorem pendingUnpaidSignal?_restrict (uid : Nat) (monthStart nextMonthStart thr : Int)
    (clients : List Client) (atts : List Attendance) (p : Payment) :
    pendingUnpaidSignal? uid monthStart nextMonthStart thr
        (clients.filter (fun c => c.user_id == uid))
        (atts.filter (fun a => a.user_id == uid)) p =
      pendingUnpaidSignal? uid monthStart nextMonthStart thr clients atts p := by
  unfold pendingUnpaidSignal?
  by_cases hu : (p.user_id == uid && (p.month_start == monthStart && p.paid == false)) = true
  · rw [hu]
    simp only [if_true]
    have hpu : p.user_id = uid := by
      simp only [Bool.and_eq_true, beq_iff_eq] at hu
      exact hu.1
    have hfind : (clients.filter (fun c => c.user_id == uid)).find?
        (fun c => c.id == p.client_id && c.user_id == p.user_id) =
        clients.find? (fun c => c.id == p.client_id && c.user_id == p.user_id) := by
      refine find?_filter_of_imp _ _ ?_ clients
      intro c hc
      simp only [Bool.and_eq_true, beq_iff_eq] at hc
      simp [hc.2, hpu]
    rw [hfind]
    cases clients.find? (fun c => c.id == p.client_id && c.user_id == p.user_id)
    · rfl
    · unfold pendingLessons attendedThisMonth
      rw [attendanceCountExcl_restrict]
  · have hu2 : (p.user_id == uid && (p.month_start == monthStart && p.paid == false)) = false := by
      simpa using hu
    rw [hu2]
    simp

theorem pendingUnpaidSignals_restrict (uid : Nat) (monthStart nextMonthStart thr : Int)
    (clients : List Client) (atts : List Attendance) (payments : List Payment) :
    pendingUnpaidSignals uid monthStart nextMonthStart thr
        (clients.filter (fun c => c.user_id == uid))
        (atts.filter (fun a => a.user_id == uid))
        (payments.filter (fun p => p.user_id == uid)) =
      pendingUnpaidSignals uid monthStart nextMonthStart thr clients atts payments := by
  unfold pendingUnpaidSignals
  have hfn : pendingUnpaidSignal? uid monthStart nextMonthStart thr
      (clients.filter (fun c => c.user_id == uid)) (atts.filter (fun a => a.user_id == uid)) =
      pendingUnpaidSignal? uid monthStart nextMonthStart thr clients atts := by
    funext p
    exact pendingUnpaidSignal?_restrict uid monthStart nextMonthStart thr clients atts p
  rw [hfn]
  refine filterMap_restrict (fun p => p.user_id == uid) _ ?_ payments
  intro p hp
  unfold pendingUnpaidSignal?
  have : (p.user_id == uid && (p.month_start == monthStart && p.paid == false)) = false := by
    simp [hp]
  rw [this]
  simp

theorem filter_upsertTask_same (A : Nat) (t : TaskInsert) (now : Timestamptz)
    (hA : t.user_id = A) :
    ∀ l : List FollowUpTask,
      (upsertFollowUpTask t now l).filter (fun r => r.user_id == A) =
        upsertFollowUpTask t now (l.filter (fun r => r.user_id == A))
  | [] => by simp [upsertFollowUpTask, List.filter, insertTaskRow, hA]
  | x :: xs => by
    by_cases hc : taskConflicts t x = true
    · have hxA : (x.user_id == A) = true := by
        simp only [taskConflicts, Bool.and_eq_true, beq_iff_eq] at hc
        simp [hc.1.1.1, hA]
      have hcA : ((conflictUpdateTask t now x).user_id == A) = true := hxA
      simp only [upsertFollowUpTask, hc, if_true, List.filter_cons, hcA, hxA, if_true]
    · have hc2 : taskConflicts t x = false := by simpa using hc
      by_cases hxA : (x.user_id == A) = true
      · simp only [upsertFollowUpTask, hc2, Bool.false_eq_true, if_false, List.filter_cons,
          hxA, if_true]
        rw [filter_upsertTask_same A t now hA xs]
      · have hxA2 : (x.user_id == A) = false := by simpa using hxA
        simp only [upsertFollowUpTask, hc2, Bool.false_eq_true, if_false, List.filter_cons,
          hxA2]
        exact filter_upsertTask_same A t now hA xs

theorem filter_upsertTask_other (B : Nat) (t : TaskInsert) (now : Timestamptz)
    (hB : (t.user_id == B) = false) :
    ∀ l : List FollowUpTask,
      (upsertFollowUpTask t now l).filter (fun r => r.user_id == B) =
        l.filter (fun r => r.user_id == B)
  | [] => by simp [upsertFollowUpTask, List.filter, insertTaskRow, hB]
  | x :: xs => by
    by_cases hc : taskConflicts t x = true
    · have hxB : (x.user_id == B) = false := by
        simp only [taskConflicts, Bool.and_eq_true, beq_iff_eq] at hc
        rw [hc.1.1.1]
        exact hB
      have hcB : ((conflictUpdateTask t now x).user_id == B) = false := hxB
      simp [upsertFollowUpTask, hc, List.filter_cons, hcB, hxB]
    · have hc2 : taskConflicts t x = false := by simpa using hc
      simp only [upsertFollowUpTask, hc2, Bool.false_eq_true, if_false, List.filter_cons]
      rw [filter_upsertTask_other B t now hB xs]

theorem filter_upsertNotification_same (A : Nat) (n : NotificationInsert)
    (hA : n.user_id = A) :
    ∀ l : List Notification,
      (upsertNotification n l).filter (fun r => r.user_id == A) =
        upsertNotification n (l.filter (fun r => r.user_id == A))
  | [] => by simp [upsertNotification, List.filter, insertNotificationRow, hA]
  | x :: xs => by
    by_cases hc : notifConflicts n x = true
    · have hxA : (x.user_id == A) = true := by
        simp only [notifConflicts, Bool.and_eq_true, beq_iff_eq] at hc
        simp [hc.1.1.1, hA]
      have hcA : ((conflictUpdateNotification n x).user_id == A) = true := hxA
      simp only [upsertNotification, hc, if_true, List.filter_cons, hcA, hxA, if_true]
    · have hc2 : notifConflicts n x = false := by simpa using hc
      by_cases hxA : (x.user_id == A) = true
      · simp only [upsertNotification, hc2, Bool.false_eq_true, if_false, List.filter_cons,
          hxA, if_true]
        rw [filter_upsertNotification_same A n hA xs]
      · have hxA2 : (x.user_id == A) = false := by simpa using hxA
        simp only [upsertNotification, hc2, Bool.false_eq_true, if_false, List.filter_cons,
          hxA2]
        exact filter_upsertNotification_same A n hA xs

theorem filter_upsertNotification_other (B : Nat) (n : NotificationInsert)
    (hB : (n.user_id == B) = false) :
    ∀ l : List Notification,
      (upsertNotification n l).filter (fun r => r.user_id == B) =
        l.filter (fun r => r.user_id == B)
  | [] => by simp [upsertNotification, List.filter, insertNotificationRow, hB]
  | x :: xs => by
    by_cases hc : notifConflicts n x = true
    · have hxB : (x.user_id == B) = false := by
        simp only [notifConflicts, Bool.and_eq_true, beq_iff_eq] at hc
        rw [hc.1.1.1]
        exact hB
      have hcB : ((conflictUpdateNotification n x).user_id == B) = false := hxB
      simp [upsertNotification, hc, List.filter_cons, hcB, hxB]
    · have hc2 : notifConflicts n x = false := by simpa using hc
      simp only [upsertNotification, hc2, Bool.false_eq_true, if_false, List.filter_cons]
      rw [filter_upsertNotification_other B n hB xs]

theorem filter_tasksFold_same (A : Nat) (env : Env) :
    ∀ (L : List Signal) (l : List FollowUpTask),
      (tasksFold A env L l).filter (fun r => r.user_id == A) =
        tasksFold A env L (l.filter (fun r => r.user_id == A))
  | [], l => rfl
  | sg :: rest, l => by
    simp only [tasksFold]
    rw [filter_tasksFold_same A env rest _,
      filter_upsertTask_same A (signalTaskInsert A env.today env.now sg) env.now rfl]

theorem filter_tasksFold_other (A B : Nat) (env : Env) (hBA : (A == B) = false) :
    ∀ (L : List Signal) (l : List FollowUpTask),
      (tasksFold A env L l).filter (fun r => r.user_id == B) =
        l.filter (fun r => r.user_id == B)
  | [], l => rfl
  | sg :: rest, l => by
    simp only [tasksFold]
    rw [filter_tasksFold_other A B env hBA rest _,
      filter_upsertTask_other B (signalTaskInsert A env.today env.now sg) env.now hBA]

theorem filter_notifsFold_same (A : Nat) (env : Env) :
    ∀ (L : List Signal) (l : List Notification),
      (notifsFold A env L l).filter (fun r => r.user_id == A) =
        notifsFold A env L (l.filter (fun r => r.user_id == A))
  | [], l => rfl
  | sg :: rest, l => by
    simp only [notifsFold]
    rw [filter_notifsFold_same A env rest _,
      filter_upsertNotification_same A (signalNotificationInsert A env.today env.now sg) rfl]

theorem filter_notifsFold_other (A B : Nat) (env : Env) (hBA : (A == B) = false) :
    ∀ (L : List Signal) (l : List Notification),
      (notifsFold A env L l).filter (fun r => r.user_id == B) =
        l.filter (fun r => r.user_id == B)
  | [], l => rfl
  | sg :: rest, l => by
    simp only [notifsFold]
    rw [filter_notifsFold_other A B env hBA rest _,
      filter_upsertNotification_other B (signalNotificationInsert A env.today env.now sg) hBA]

theorem filter_map_comm_of_pred {α : Type} (g : α → α) (p : α → Bool)
    (h : ∀ a, p (g a) = p a) :
    ∀ l : List α, (l.map g).filter p = (l.filter p).map g
  | [] => rfl
  | x :: xs => by
    cases hx : p x
    · have hgx : p (g x) = false := by rw [h x, hx]
      simp [List.filter_cons, hx, hgx, filter_map_comm_of_pred g p h xs]
    · have hgx : p (g x) = true := by rw [h x, hx]
      simp [List.filter_cons, hx, hgx, filter_map_comm_of_pred g p h xs]

theorem filter_setLast_comm (A B : Nat) (now : Timestamptz) (l : List AutomationSettings) :
    (setLastRefreshed A now l).filter (fun s => s.user_id == B) =
      setLastRefreshed A now (l.filter (fun s => s.user_id == B)) := by
  unfold setLastRefreshed
  refine filter_map_comm_of_pred _ _ ?_ l
  intro s
  by_cases hs : (s.user_id == A) = true <;> simp [hs]

theorem filter_setLast_other (A B : Nat) (now : Timestamptz) (hBA : (A == B) = false)
    (l : List AutomationSettings) :
    (setLastRefreshed A now l).filter (fun s => s.user_id == B) =
      l.filter (fun s => s.user_id == B) := by
  rw [filter_setLast_comm A B now l]
  unfold setLastRefreshed
  have hid : ∀ s ∈ l.filter (fun s => s.user_id == B),
      (if s.user_id == A then ({ s with last_refreshed_at := some now, updated_at := now } : AutomationSettings) else s) = s := by
    intro s hs
    have hsB : s.user_id = B := by simpa using (List.mem_filter.mp hs).2
    have hne : ¬A = B := by simpa using hBA
    have hsA : (s.user_id == A) = false := by
      rw [hsB]
      simpa using fun h2 => hne h2.symm
    rw [hsA]
    simp
  rw [List.map_congr_left hid]
  simp

theorem filter_ensure_same (A : Nat) (now : Timestamptz) (l : List AutomationSettings) :
    (ensureSettings A now l).filter (fun s => s.user_id == A) =
      ensureSettings A now (l.filter (fun s => s.user_id == A)) := by
  unfold ensureSettings
  rw [any_filter_self]
  cases hany : l.any (fun s => s.user_id == A)
  · simp only [Bool.false_eq_true, if_false]
    rw [List.filter_append]
    simp [defaultSettings]
  · simp only [if_true]

theorem filter_ensure_other (A B : Nat) (now : Timestamptz) (hBA : (A == B) = false)
    (l : List AutomationSettings) :
    (ensureSettings A now l).filter (fun s => s.user_id == B) =
      l.filter (fun s => s.user_id == B) := by
  unfold ensureSettings
  cases hany : l.any (fun s => s.user_id == A)
  · simp only [Bool.false_eq_true, if_false]
    rw [List.filter_append]
    simp [defaultSettings, hBA]
  · simp only [if_true]

theorem rulesPipeline_clients (uid : Nat) (env : Env) (s : AutomationSettings) (db0 : DBState) :
    (rulesPipeline uid env s db0).1.clients = db0.clients := by
  unfold rulesPipeline
  dsimp only
  rw [applySignals_clients, applySignals_clients, applySignals_clients]

theorem rulesPipeline_attendance (uid : Nat) (env : Env) (s : AutomationSettings)
    (db0 : DBState) :
    (rulesPipeline uid env s db0).1.attendance = db0.attendance := by
  unfold rulesPipeline
  dsimp only
  rw [applySignals_attendance, applySignals_attendance, applySignals_attendance]

theorem rulesPipeline_payments (uid : Nat) (env : Env) (s : AutomationSettings)
    (db0 : DBState) :
    (rulesPipeline uid env s db0).1.payments = db0.payments := by
  unfold rulesPipeline
  dsimp only
  rw [applySignals_payments, applySignals_payments, applySignals_payments]

theorem pipeL2_eval (uid : Nat) (env : Env) (s : AutomationSettings) (db : DBState) :
    pipeL2 uid env s (ensuredDB uid env db) =
      (if s.attendance_drop_enabled then
        attendanceDropSignals uid env.today s.attendance_drop_ratio db.clients db.attendance
      else []) := by
  unfold pipeL2
  rw [applySignals_clients, applySignals_attendance]
  rfl

theorem pipeL3_eval (uid : Nat) (env : Env) (s : AutomationSettings) (db : DBState) :
    pipeL3 uid env s (ensuredDB uid env db) =
      (if s.pending_unpaid_risk_enabled then
        pendingUnpaidSignals uid env.monthStart env.nextMonthStart s.pending_lessons_threshold
          db.clients db.attendance db.payments
      else []) := by
  unfold pipeL3
  rw [applySignals_clients, applySignals_clients, applySignals_attendance,
    applySignals_attendance, applySignals_payments, applySignals_payments]
  rfl

theorem rulesPipeline_snd (uid : Nat) (env : Env) (s : AutomationSettings) (db0 : DBState) :
    (rulesPipeline uid env s db0).2 =
      (pipeL1 uid env s db0).length +
        ((pipeL2 uid env s db0).length + (pipeL3 uid env s db0).length) := rfl

theorem refresh_owner_frame (A B : Nat) (env : Env) (db : DBState) (hBA : (A == B) = false) :
    (refresh_management_signals (some A) env db).1.clients = db.clients ∧
    (refresh_management_signals (some A) env db).1.attendance = db.attendance ∧
    (refresh_management_signals (some A) env db).1.payments = db.payments ∧
    (refresh_management_signals (some A) env db).1.follow_up_tasks.filter
        (fun r => r.user_id == B) = db.follow_up_tasks.filter (fun r => r.user_id == B) ∧
    (refresh_management_signals (some A) env db).1.notifications.filter
        (fun r => r.user_id == B) = db.notifications.filter (fun r => r.user_id == B) ∧
    (refresh_management_signals (some A) env db).1.automation_settings.filter
        (fun s => s.user_id == B) = db.automation_settings.filter (fun s => s.user_id == B) := by
  cases hg : dailyGuardHitB A env db with
  | true =>
    unfold dailyGuardHitB at hg
    cases hl : lastRefreshedAt A db with
    | none => rw [hl] at hg; cases hg
    | some t =>
      rw [hl] at hg
      have hday : t.day = env.now.day := by simpa using hg
      rw [refresh_guard_eq A env db t hl hday]
      exact ⟨rfl, rfl, rfl, rfl, rfl, rfl⟩
  | false =>
    rw [refresh_noGuard_eq A env db hg]
    unfold fullRunOut
    dsimp only
    refine ⟨?_, ?_, ?_, ?_, ?_, ?_⟩
    · rw [rulesPipeline_clients]
      rfl
    · rw [rulesPipeline_attendance]
      rfl
    · rw [rulesPipeline_payments]
      rfl
    · rw [rulesPipeline_tasks, filter_tasksFold_other A B env hBA,
        filter_tasksFold_other A B env hBA, filter_tasksFold_other A B env hBA]
      rfl
    · rw [rulesPipeline_notifs, filter_notifsFold_other A B env hBA,
        filter_notifsFold_other A B env hBA, filter_notifsFold_other A B env hBA]
      rfl
    · rw [rulesPipeline_settings, filter_setLast_other A B env.now hBA]
      have hens : (ensuredDB A env db).automation_settings =
          ensureSettings A env.now db.automation_settings := rfl
      rw [hens, filter_ensure_other A B env.now hBA]

theorem refresh_restrict_sim (A : Nat) (env : Env) (db db2 : DBState)
    (hagree : restrictDB A db = restrictDB A db2) :
    (refresh_management_signals (some A) env db).2 =
      (refresh_management_signals (some A) env db2).2 ∧
    restrictDB A (refresh_management_signals (some A) env db).1 =
      restrictDB A (refresh_management_signals (some A) env db2).1 := by
  have hcl : db.clients.filter (fun c => c.user_id == A) =
      db2.clients.filter (fun c => c.user_id == A) := congrArg DBState.clients hagree
  have hat : db.attendance.filter (fun a => a.user_id == A) =
      db2.attendance.filter (fun a => a.user_id == A) := congrArg DBState.attendance hagree
  have hpy : db.payments.filter (fun p => p.user_id == A) =
      db2.payments.filter (fun p => p.user_id == A) := congrArg DBState.payments hagree
  have htk : db.follow_up_tasks.filter (fun t => t.user_id == A) =
      db2.follow_up_tasks.filter (fun t => t.user_id == A) :=
    congrArg DBState.follow_up_tasks hagree
  have hnt : db.notifications.filter (fun n => n.user_id == A) =
      db2.notifications.filter (fun n => n.user_id == A) :=
    congrArg DBState.notifications hagree
  have hst : db.automation_settings.filter (fun s => s.user_id == A) =
      db2.automation_settings.filter (fun s => s.user_id == A) :=
    congrArg DBState.automation_settings hagree
  have hfind : db.automation_settings.find? (fun s => s.user_id == A) =
      db2.automation_settings.find? (fun s => s.user_id == A) := by
    rw [← find?_filter_of_imp (fun s => s.user_id == A) (fun s => s.user_id == A)
        (fun a h => h) db.automation_settings,
      ← find?_filter_of_imp (fun s => s.user_id == A) (fun s => s.user_id == A)
        (fun a h => h) db2.automation_settings, hst]
  have hsetOf : settingsOf A env db = settingsOf A env db2 := by
    unfold settingsOf
    rw [hfind]
  have hlastEq : lastRefreshedAt A db = lastRefreshedAt A db2 := by
    unfold lastRefreshedAt
    rw [hfind]
  have hguardEq : dailyGuardHitB A env db = dailyGuardHitB A env db2 := by
    unfold dailyGuardHitB
    rw [hlastEq]
  cases hg : dailyGuardHitB A env db with
  | true =>
    unfold dailyGuardHitB at hg
    cases hl : lastRefreshedAt A db with
    | none => rw [hl] at hg; cases hg
    | some t =>
      rw [hl] at hg
      have hday : t.day = env.now.day := by simpa using hg
      have hl2 : lastRefreshedAt A db2 = some t := by rw [← hlastEq]; exact hl
      rw [refresh_guard_eq A env db t hl hday, refresh_guard_eq A env db2 t hl2 hday]
      exact ⟨rfl, hagree⟩
  | false =>
    have hg2 : dailyGuardHitB A env db2 = false := by rw [← hguardEq]; exact hg
    rw [refresh_noGuard_eq A env db hg, refresh_noGuard_eq A env db2 hg2]
    have hL1 : pipeL1 A env (settingsOf A env db) (ensuredDB A env db) =
        pipeL1 A env (settingsOf A env db2) (ensuredDB A env db2) := by
      rw [← hsetOf]
      unfold pipeL1
      cases hfl : (settingsOf A env db).no_show_risk_enabled
      · simp
      · simp only [if_true]
        show noShowSignals A env.today (settingsOf A env db).no_show_threshold
            db.clients db.attendance =
          noShowSignals A env.today (settingsOf A env db).no_show_threshold
            db2.clients db2.attendance
        rw [← noShowSignals_restrict A env.today (settingsOf A env db).no_show_threshold
            db.clients db.attendance,
          ← noShowSignals_restrict A env.today (settingsOf A env db).no_show_threshold
            db2.clients db2.attendance, hcl, hat]
    have hL2 : pipeL2 A env (settingsOf A env db) (ensuredDB A env db) =
        pipeL2 A env (settingsOf A env db2) (ensuredDB A env db2) := by
      rw [pipeL2_eval, pipeL2_eval, ← hsetOf]
      cases hfl : (settingsOf A env db).attendance_drop_enabled
      · simp
      · simp only [if_true]
        rw [← attendanceDropSignals_restrict A env.today
            (settingsOf A env db).attendance_drop_ratio db.clients db.attendance,
          ← attendanceDropSignals_restrict A env.today
            (settingsOf A env db).attendance_drop_ratio db2.clients db2.attendance, hcl, hat]
    have hL3 : pipeL3 A env (settingsOf A env db) (ensuredDB A env db) =
        pipeL3 A env (settingsOf A env db2) (ensuredDB A env db2) := by
      rw [pipeL3_eval, pipeL3_eval, ← hsetOf]
      cases hfl : (settingsOf A env db).pending_unpaid_risk_enabled
      · simp
      · simp only [if_true]
        rw [← pendingUnpaidSignals_restrict A env.monthStart env.nextMonthStart
            (settingsOf A env db).pending_lessons_threshold db.clients db.attendance db.payments,
          ← pendingUnpaidSignals_restrict A env.monthStart env.nextMonthStart
            (settingsOf A env db).pending_lessons_threshold db2.clients db2.attendance
            db2.payments, hcl, hat, hpy]
    constructor
    · unfold fullRunOut
      dsimp only
      rw [rulesPipeline_snd, rulesPipeline_snd, hL1, hL2, hL3]
    · unfold fullRunOut
      dsimp only
      unfold restrictDB
      simp only [DBState.mk.injEq]
      refine ⟨?_, ?_, ?_, ?_, ?_, ?_⟩
      · rw [rulesPipeline_clients, rulesPipeline_clients]
        exact hcl
      · rw [rulesPipeline_attendance, rulesPipeline_attendance]
        exact hat
      · rw [rulesPipeline_payments, rulesPipeline_payments]
        exact hpy
      · rw [rulesPipeline_tasks, rulesPipeline_tasks,
          filter_tasksFold_same A env, filter_tasksFold_same A env,
          filter_tasksFold_same A env, filter_tasksFold_same A env,
          filter_tasksFold_same A env, filter_tasksFold_same A env,
          hL1, hL2, hL3]
        have hbase : (ensuredDB A env db).follow_up_tasks.filter (fun r => r.user_id == A) =
            (ensuredDB A env db2).follow_up_tasks.filter (fun r => r.user_id == A) := htk
        rw [hbase]
      · rw [rulesPipeline_notifs, rulesPipeline_notifs,
          filter_notifsFold_same A env, filter_notifsFold_same A env,
          filter_notifsFold_same A env, filter_notifsFold_same A env,
          filter_notifsFold_same A env, filter_notifsFold_same A env,
          hL1, hL2, hL3]
        have hbase : (ensuredDB A env db).notifications.filter (fun r => r.user_id == A) =
            (ensuredDB A env db2).notifications.filter (fun r => r.user_id == A) := hnt
        rw [hbase]
      · rw [rulesPipeline_settings, rulesPipeline_settings,
          filter_setLast_comm A A env.now, filter_setLast_comm A A env.now]
        have he1 : (ensuredDB A env db).automation_settings =
            ensureSettings A env.now db.automation_settings := rfl
        have he2 : (ensuredDB A env db2).automation_settings =
            ensureSettings A env.now db2.automation_settings := rfl
        rw [he1, he2, filter_ensure_same A env.now, filter_ensure_same A env.now, hst]

/-- Claim C8: the refresh of owner A leaves the read-only tables
untouched, leaves every stored row of any other owner B untouched, and
both its returned result and the rows of owner A it leaves behind depend
only on the rows of owner A in the starting state. -/
theorem refresh_cross_owner_isolation (A B : Nat) (env : Env) (db dbOther : DBState)
    (hBA : B ≠ A) (hagree : restrictDB A db = restrictDB A dbOther) :
    ((refresh_management_signals (some A) env db).1.clients = db.clients ∧
     (refresh_management_signals (some A) env db).1.attendance = db.attendance ∧
     (refresh_management_signals (some A) env db).1.payments = db.payments) ∧
    ((refresh_management_signals (some A) env db).1.follow_up_tasks.filter
        (fun r => r.user_id == B) = db.follow_up_tasks.filter (fun r => r.user_id == B) ∧
     (refresh_management_signals (some A) env db).1.notifications.filter
        (fun r => r.user_id == B) = db.notifications.filter (fun r => r.user_id == B) ∧
     (refresh_management_signals (some A) env db).1.automation_settings.filter
        (fun s => s.user_id == B) =
       db.automation_settings.filter (fun s => s.user_id == B)) ∧
    ((refresh_management_signals (some A) env db).2 =
       (refresh_management_signals (some A) env dbOther).2 ∧
     restrictDB A (refresh_management_signals (some A) env db).1 =
       restrictDB A (refresh_management_signals (some A) env dbOther).1) := by
  have hAB : (A == B) = false := by
    simp only [beq_eq_false_iff_ne, ne_eq]
    exact fun h => hBA h.symm
  obtain ⟨h1, h2, h3, h4, h5, h6⟩ := refresh_owner_frame A B env db hAB
  exact ⟨⟨h1, h2, h3⟩, ⟨h4, h5, h6⟩, refresh_restrict_sim A env db dbOther hagree⟩

/-- The witness state of another owner: owner 9 has one extra client row
that owner 7 must neither read nor write. -/
def dbOtherW : DBState :=
  { dbNoShowW with clients := dbNoShowW.clients ++
      [{ id := 5, user_id := 9, full_name := "B", is_active := true }] }

/-- Witness for C8 at owners 7 and 9 over the concrete witness states. -/
theorem refresh_cross_owner_isolation_witness :
    (((refresh_management_signals (some 7) envAW dbNoShowW).1.clients = dbNoShowW.clients ∧
      (refresh_management_signals (some 7) envAW dbNoShowW).1.attendance =
        dbNoShowW.attendance ∧
      (refresh_management_signals (some 7) envAW dbNoShowW).1.payments =
        dbNoShowW.payments) ∧
     ((refresh_management_signals (some 7) envAW dbNoShowW).1.follow_up_tasks.filter
         (fun r => r.user_id == 9) =
        dbNoShowW.follow_up_tasks.filter (fun r => r.user_id == 9) ∧
      (refresh_management_signals (some 7) envAW dbNoShowW).1.notifications.filter
         (fun r => r.user_id == 9) =
        dbNoShowW.notifications.filter (fun r => r.user_id == 9) ∧
      (refresh_management_signals (some 7) envAW dbNoShowW).1.automation_settings.filter
         (fun s => s.user_id == 9) =
        dbNoShowW.automation_settings.filter (fun s => s.user_id == 9)) ∧
     ((refresh_management_signals (some 7) envAW dbNoShowW).2 =
        (refresh_management_signals (some 7) envAW dbOtherW).2 ∧
      restrictDB 7 (refresh_management_signals (some 7) envAW dbNoShowW).1 =
        restrictDB 7 (refresh_management_signals (some 7) envAW dbOtherW).1)) :=
  refresh_cross_owner_isolation 7 9 envAW dbNoShowW dbOtherW (by decide) rfl
